import Mathlib

set_option maxRecDepth 100000

/- `Rat.add`/`Rat.mul` are `@[irreducible]` in Batteries, which blocks `decide`
from evaluating concrete rational arithmetic; restore reducibility (this only
affects unfolding during elaboration, not the trusted kernel checking). -/
set_option allowUnsafeReducibility true
attribute [semireducible] Rat.mul Rat.add Rat.sub Rat.inv

/-!
# Verification of the automagik-telemetry batching/transport core

A shallow embedding of the Python telemetry library (client dispatcher, OTLP
backend, ClickHouse backend) and proofs about its batching, retry, compression,
validation and timestamp behaviour.

Network effects are modelled by an oracle `net : Nat → NetOutcome` giving the
outcome of the n-th HTTP attempt of a run, and an explicit `World` recording the
requests issued and the backoff sleeps performed.  Python exceptions are
modelled with `Except`: operations that can raise return `Except (PyErr × _) _`
and `try/except` blocks of the source become explicit handlers.  `json.dumps`
and `gzip.compress` are abstracted as serializer/compressor parameters; the
decision logic that uses them (thresholds, header choice, retry classification)
is translated literally from the source.
-/

/-- Outcome of one `urlopen` HTTP attempt: either a response object with a
status code, or one of the exceptions `urlopen` can raise. -/
inductive NetOutcome
  | status (code : Nat)
  | raiseHttp (code : Nat)
  | raiseUrl
  | raiseTimeout
  | raiseOther
deriving DecidableEq, Repr

/-- A Python exception, at the granularity the sources' `except` clauses
distinguish. -/
inductive PyErr
  | httpError (code : Nat)
  | urlError
  | timeoutError
  | other
deriving DecidableEq, Repr

/-- An issued HTTP request, as far as the claims observe it: target url, body
bytes, whether a `Content-Encoding: gzip` header was attached, and the Basic
auth credential (modelled pre-base64; no claim depends on the encoding). -/
structure HttpReq where
  url : String
  body : List Nat
  contentEncodingGzip : Bool
  authBasic : Option String
deriving DecidableEq, Repr

/-- The observable effect log: HTTP requests issued so far (in order) and the
backoff sleeps performed (in seconds). -/
structure World where
  reqs : List HttpReq
  sleeps : List ℚ
deriving DecidableEq, Repr

/-- The empty effect log. -/
def World.empty : World := { reqs := [], sleeps := [] }

/-- Log one HTTP request. -/
def World.push (w : World) (r : HttpReq) : World := { w with reqs := w.reqs ++ [r] }

/-- Log one backoff sleep. -/
def World.sleep (w : World) (t : ℚ) : World := { w with sleeps := w.sleeps ++ [t] }

/-! ## IEEE-754 double rounding, `datetime.fromtimestamp` and `strftime`

The ClickHouse backend derives human-readable timestamps by Python float
arithmetic (`timestamp_ns / 1_000_000_000`, `timestamp.timestamp() * 1e9`).
Floats are modelled exactly: a Python float is the rational value it denotes,
and each arithmetic operation rounds its exact rational result to the binary64
grid with `rd`. -/

/-- Fuelled binary logarithm: `log2fuel f n` is `⌊log₂ n⌋` for `1 ≤ n < 2^f`
(and `0` for `n ≤ 1`).  Structural recursion keeps it kernel-evaluable. -/
def log2fuel : Nat → Nat → Nat
  | 0, _ => 0
  | f + 1, n => if n ≤ 1 then 0 else log2fuel f (n / 2) + 1

/-- Kernel-evaluable floor of a rational (`⌊q⌋`); `q.den` is positive, so
euclidean division of the numerator by it is the floor. -/
def qfloor (q : ℚ) : ℤ := q.num / q.den

theorem qfloor_eq (q : ℚ) : qfloor q = ⌊q⌋ := (Rat.floor_def).symm

/-- Round a rational to the nearest integer, ties to even (Python's `round`,
and the IEEE-754 default rounding used below). -/
def roundHE (q : ℚ) : ℤ :=
  let f := qfloor q
  if q - f < 1/2 then f
  else if 1/2 < q - f then f + 1
  else if f % 2 = 0 then f else f + 1

/-- Round a nonnegative rational to the nearest IEEE-754 binary64 value
(ties to even).  For `q ≥ 1` this is exactly the 53-bit-significand grid of the
normal range; values in `(0,1)` are rounded on the fixed grid `2⁻⁵²` (finer
than binary64 requires — adequate here: such values only ever feed Python's
whole-microsecond rounding). -/
def rdPos (q : ℚ) : ℚ :=
  if q = 0 then 0
  else
    let e := log2fuel 64 (qfloor q).toNat
    if e ≤ 52 then (roundHE (q * 2 ^ (52 - e)) : ℚ) / 2 ^ (52 - e)
    else (roundHE (q / 2 ^ (e - 52)) : ℚ) * 2 ^ (e - 52)

/-- `rdPos` extended to negative values by the sign symmetry of IEEE-754
rounding.  Every float produced in the sources under verification is `rd` of
an exact rational. -/
def rd (q : ℚ) : ℚ := if q < 0 then -rdPos (-q) else rdPos q

/-- `datetime.fromtimestamp(t, tz=UTC)` for a nonnegative double `t`, reduced
to the whole seconds of the resulting datetime (the only part `strftime
"%Y-%m-%d %H:%M:%S"` observes): CPython splits `t` with `modf`, rounds the
fractional part to whole microseconds half-to-even (the multiplication by 1e6
itself being a float operation), and carries an overflowing microsecond into
the seconds. -/
def fromtimestampSec (t : ℚ) : ℤ :=
  let sec := qfloor t
  let frac := t - sec
  let us := roundHE (rd (frac * 1000000))
  if 1000000 ≤ us then sec + 1
  else if us < 0 then sec - 1
  else sec

/-- Civil date from a count of days since 1970-01-01 (proleptic Gregorian,
nonnegative days suffice here): returns `(year, month, day)`. -/
def civilFromDays (days : Nat) : Nat × Nat × Nat :=
  let z := days + 719468
  let era := z / 146097
  let doe := z % 146097
  let yoe := (doe - doe / 1460 + doe / 36524 - doe / 146096) / 365
  let y := yoe + era * 400
  let doy := doe - (365 * yoe + yoe / 4 - yoe / 100)
  let mp := (5 * doy + 2) / 153
  let d := doy - (153 * mp + 2) / 5 + 1
  let m := if mp < 10 then mp + 3 else mp - 9
  (if m ≤ 2 then y + 1 else y, m, d)

/-- Zero-pad a number below 100 to two digits. -/
def pad2 (n : Nat) : String := if n < 10 then "0" ++ toString n else toString n

/-- `strftime("%Y-%m-%d %H:%M:%S")` of the UTC datetime at `s` whole seconds
since the epoch. -/
def formatSeconds (s : Nat) : String :=
  let days := s / 86400
  let sod := s % 86400
  let c := civilFromDays days
  toString c.1 ++ "-" ++ pad2 c.2.1 ++ "-" ++ pad2 c.2.2 ++ " " ++
    pad2 (sod / 3600) ++ ":" ++ pad2 (sod % 3600 / 60) ++ ":" ++ pad2 (sod % 60)

/-- The human-readable timestamp the ClickHouse trace transform computes from a
nanosecond timestamp: `datetime.fromtimestamp(ns / 1_000_000_000,
tz=UTC).strftime("%Y-%m-%d %H:%M:%S")`, the division being float division. -/
def nsToTimestampString (ns : Nat) : String :=
  formatSeconds (fromtimestampSec (rd ((ns : ℚ) / 1000000000))).toNat

/-- What the specification means by the nanosecond timestamp "divided by 1e9
and formatted to the second": exact division truncated to whole seconds, then
formatted.  This is the spec-side definition claim C9 compares rows against. -/
def specSecondString (ns : Nat) : String := formatSeconds (ns / 1000000000)

/-- A Python timezone-aware `datetime`, modelled by its epoch second and its
microsecond field (`0 ≤ usec < 1000000`); nonnegative epochs suffice for this
development. -/
structure PyDatetime where
  sec : Nat
  usec : Nat
deriving DecidableEq, Repr

/-- `int(dt.timestamp() * 1_000_000_000)`: `datetime.timestamp()` divides the
exact microsecond count by 1e6 as a float, the multiplication by 1e9 is a float
multiplication, and `int` truncates. -/
def PyDatetime.timestampNs (dt : PyDatetime) : ℤ :=
  qfloor (rd (rd (((dt.sec * 1000000 + dt.usec : Nat) : ℚ) / 1000000) * 1000000000))

/-- `dt.strftime("%Y-%m-%d %H:%M:%S")`: formatting reads the datetime's own
civil fields, i.e. its whole epoch second. -/
def PyDatetime.str (dt : PyDatetime) : String := formatSeconds dt.sec

/-! ## OTLP backend (`backends/otlp.py`)

`OTLPBackend` sends each payload immediately with retry/backoff.  The payload
dict and `json.dumps` are abstracted: functions receive the serialized payload
bytes.  `gzip.compress` is a compressor parameter `gz`. -/

/-- Constructor arguments of `OTLPBackend`. -/
structure OtlpConfig where
  endpoint : String
  metricsEndpoint : String
  logsEndpoint : String
  timeout : Nat
  maxRetries : Nat
  retryBackoffBase : ℚ
  compressionEnabled : Bool
  compressionThreshold : Nat
  verbose : Bool
deriving DecidableEq, Repr

/-- Ambient effects of an OTLP backend run: the gzip compressor and the network
oracle (outcome of the n-th HTTP attempt of the run). -/
structure OtlpEnv where
  cfg : OtlpConfig
  gz : List Nat → List Nat
  net : Nat → NetOutcome

/-- `OTLPBackend._compress_payload`: gzip iff compression is enabled and the
byte length is at least the threshold. -/
def otlpCompressPayload (env : OtlpEnv) (payload : List Nat) : List Nat :=
  if env.cfg.compressionEnabled ∧ env.cfg.compressionThreshold ≤ payload.length then
    env.gz payload
  else payload

/-- The `compressed` flag `_send_with_retry` computes after `_compress_payload`:
the `Content-Encoding: gzip` header is attached iff the (possibly compressed)
bytes are strictly shorter than the original serialization. -/
def otlpGzipHeader (env : OtlpEnv) (payload : List Nat) : Bool :=
  (otlpCompressPayload env payload).length < payload.length

/-- The single HTTP request `_send_with_retry` builds and re-posts on every
attempt. -/
def otlpRequest (env : OtlpEnv) (endpoint : String) (payload : List Nat) : HttpReq :=
  { url := endpoint
    body := otlpCompressPayload env payload
    contentEncodingGzip := otlpGzipHeader env payload
    authBasic := none }

/-- The retry loop of `_send_with_retry` (`for attempt in
range(self.max_retries + 1)`), one recursive step per iteration; `fuel` is the
number of iterations left, `attempt` the Python loop index.  200 → success;
other statuses below 500 and `HTTPError`s below 500 → `False` immediately;
5xx, `URLError`, `TimeoutError` → retry after a backoff sleep of `base * 2 ^
attempt` (skipped after the final attempt); any other exception escapes the
loop's `except` clause. -/
def otlpAttemptLoop (env : OtlpEnv) (req : HttpReq) :
    Nat → Nat → World → Except (PyErr × World) (Bool × World)
  | 0, _, w => .ok (false, w)
  | fuel + 1, attempt, w =>
    let w1 := w.push req
    let next : World → Except (PyErr × World) (Bool × World) := fun w2 =>
      let w3 := if attempt < env.cfg.maxRetries then
          w2.sleep (env.cfg.retryBackoffBase * 2 ^ attempt)
        else w2
      otlpAttemptLoop env req fuel (attempt + 1) w3
    match env.net w.reqs.length with
    | .status code =>
      if code = 200 then .ok (true, w1)
      else if 500 ≤ code then next w1
      else .ok (false, w1)
    | .raiseHttp code => if code < 500 then .ok (false, w1) else next w1
    | .raiseUrl => next w1
    | .raiseTimeout => next w1
    | .raiseOther => .error (.other, w1)

/-- `OTLPBackend._send_with_retry`: serialize (abstracted to the given bytes),
compress, run the retry loop; the enclosing `try`/`except Exception` converts
any escaped exception into a `False` return. -/
def otlpSendWithRetry (env : OtlpEnv) (endpoint : String) (payload : List Nat)
    (w : World) : Except (PyErr × World) (Bool × World) :=
  match otlpAttemptLoop env (otlpRequest env endpoint payload)
      (env.cfg.maxRetries + 1) 0 w with
  | .ok r => .ok r
  | .error (_, w') => .ok (false, w')

/-- `OTLPBackend.send_trace`. -/
def otlpSendTrace (env : OtlpEnv) (payload : List Nat) (w : World) :
    Except (PyErr × World) (Bool × World) :=
  otlpSendWithRetry env env.cfg.endpoint payload w

/-- `OTLPBackend.send_metric`. -/
def otlpSendMetric (env : OtlpEnv) (payload : List Nat) (w : World) :
    Except (PyErr × World) (Bool × World) :=
  otlpSendWithRetry env env.cfg.metricsEndpoint payload w

/-- `OTLPBackend.send_log`. -/
def otlpSendLog (env : OtlpEnv) (payload : List Nat) (w : World) :
    Except (PyErr × World) (Bool × World) :=
  otlpSendWithRetry env env.cfg.logsEndpoint payload w

/-- `OTLPBackend.flush`: the backend does not buffer, always `True`. -/
def otlpFlush (_env : OtlpEnv) (w : World) : Except (PyErr × World) (Bool × World) :=
  .ok (true, w)

/-! ## ClickHouse backend (`backends/clickhouse.py`): data model

Python dicts with string keys are modelled as association lists with
last-write-wins insertion (`dictInsert`) and defaulted lookup (`dictGet`).
Attribute maps handed to `send_metric`/`send_log` are modelled as string-valued
maps (their values are passed through `str(...)`, which is then the identity;
no claim depends on non-string attribute values there). -/

/-- Python dict assignment `d[k] = v` on an association list. -/
def dictInsert (l : List (String × String)) (k v : String) : List (String × String) :=
  if l.any (fun p => p.1 == k) then l.map (fun p => if p.1 == k then (k, v) else p)
  else l ++ [(k, v)]

/-- Python `d.get(k, default)`. -/
def dictGet (l : List (String × String)) (k d : String) : String :=
  match l.find? (fun p => p.1 == k) with
  | some p => p.2
  | none => d

/-- Python `k in d`. -/
def dictHas (l : List (String × String)) (k : String) : Bool :=
  l.any (fun p => p.1 == k)

/-- `str(b)` for a Python bool. -/
def pyBoolStr (b : Bool) : String := if b then "True" else "False"

/-- Stands in for Python's `str(float)` (shortest round-trip repr); no settled
claim depends on its exact output, only on it being some string. -/
def pyFloatRepr (q : ℚ) : String := toString q.num ++ "/" ++ toString q.den

/-- A value dict of an OTLP attribute (`{"stringValue": ...}` etc.); `absent`
is a dict carrying none of the four recognised keys. -/
inductive OtlpAttrVal
  | stringValue (s : String)
  | intValue (n : ℤ)
  | doubleValue (q : ℚ)
  | boolValue (b : Bool)
  | absent
deriving DecidableEq, Repr

/-- One entry of an OTLP attribute list: `{"key": ..., "value": {...}}`, both
possibly missing. -/
structure OtlpAttrEntry where
  key : Option String
  value : OtlpAttrVal
deriving DecidableEq, Repr

/-- The `status` dict of an OTLP span. -/
structure OtlpStatus where
  code : Option ℤ
  message : Option String
deriving DecidableEq, Repr

/-- An OTLP-formatted span as `transform_otlp_to_clickhouse` reads it;
`Option` fields are keys the span dict may lack (read with `.get` defaults). -/
structure OtlpSpan where
  traceId : Option String
  spanId : Option String
  parentSpanId : Option String
  name : Option String
  kind : Option String
  startTimeUnixNano : Option Nat
  endTimeUnixNano : Option Nat
  status : Option OtlpStatus
  attributes : List OtlpAttrEntry
  resourceAttributes : List OtlpAttrEntry
deriving DecidableEq, Repr

/-- The span-attribute flattening loop of `transform_otlp_to_clickhouse`:
string/int/double/bool values are stringified into a flat dict, anything else
is skipped. -/
def flattenSpanAttrs (entries : List OtlpAttrEntry) : List (String × String) :=
  entries.foldl
    (fun acc e =>
      let key := e.key.getD ""
      match e.value with
      | .stringValue s => dictInsert acc key s
      | .intValue n => dictInsert acc key (toString n)
      | .doubleValue q => dictInsert acc key (pyFloatRepr q)
      | .boolValue b => dictInsert acc key (pyBoolStr b)
      | .absent => acc)
    []

/-- The resource-attribute loop of `transform_otlp_to_clickhouse`: only
`stringValue` entries are collected. -/
def flattenResourceAttrs (entries : List OtlpAttrEntry) : List (String × String) :=
  entries.foldl
    (fun acc e =>
      match e.value with
      | .stringValue s => dictInsert acc (e.key.getD "") s
      | _ => acc)
    []

/-- `int((end_ns - start_ns) / 1_000_000) if end_ns > start_ns else 0` — the
division is float division. -/
def durationMs (startNs endNs : Nat) : ℤ :=
  if startNs < endNs then qfloor (rd (((endNs - startNs : Nat) : ℚ) / 1000000)) else 0

/-- A row of the ClickHouse `traces` table. -/
structure ChTraceRow where
  trace_id : String
  span_id : String
  parent_span_id : String
  timestamp : String
  timestamp_ns : Nat
  duration_ms : ℤ
  service_name : String
  span_name : String
  span_kind : String
  status_code : String
  status_message : String
  project_name : String
  project_version : String
  environment : String
  hostname : String
  attributes : List (String × String)
  user_id : String
  session_id : String
  os_type : String
  os_version : String
  runtime_name : String
  runtime_version : String
  cloud_provider : String
  cloud_region : String
  cloud_availability_zone : String
  instrumentation_library_name : String
  instrumentation_library_version : String
deriving DecidableEq, Repr

/-- `ClickHouseBackend.transform_otlp_to_clickhouse`; `nowNs` is the ambient
`time.time_ns()` used when the span has no `startTimeUnixNano`. -/
def transformOtlpToClickhouse (span : OtlpSpan) (nowNs : Nat) : ChTraceRow :=
  let timestampNs := span.startTimeUnixNano.getD nowNs
  let startNs := span.startTimeUnixNano.getD 0
  let endNs := span.endTimeUnixNano.getD startNs
  let status := span.status.getD { code := none, message := none }
  let statusCode := if status.code = some 1 then "OK" else status.message.getD "OK"
  let attrs := flattenSpanAttrs span.attributes
  let resourceAttrs := flattenResourceAttrs span.resourceAttributes
  { trace_id := span.traceId.getD ""
    span_id := span.spanId.getD ""
    parent_span_id := span.parentSpanId.getD ""
    timestamp := nsToTimestampString timestampNs
    timestamp_ns := timestampNs
    duration_ms := durationMs startNs endNs
    service_name := dictGet resourceAttrs "service.name" "unknown"
    span_name := span.name.getD "unknown"
    span_kind := span.kind.getD "INTERNAL"
    status_code := statusCode
    status_message := status.message.getD ""
    project_name := dictGet resourceAttrs "project.name" ""
    project_version := dictGet resourceAttrs "project.version" ""
    environment := dictGet resourceAttrs "deployment.environment" "production"
    hostname := dictGet resourceAttrs "host.name" ""
    attributes := attrs
    user_id := dictGet attrs "user.id" ""
    session_id := dictGet attrs "session.id" ""
    os_type := dictGet resourceAttrs "os.type" ""
    os_version := dictGet resourceAttrs "os.version" ""
    runtime_name := dictGet resourceAttrs "process.runtime.name" ""
    runtime_version := dictGet resourceAttrs "process.runtime.version" ""
    cloud_provider := dictGet resourceAttrs "cloud.provider" ""
    cloud_region := dictGet resourceAttrs "cloud.region" ""
    cloud_availability_zone := dictGet resourceAttrs "cloud.availability_zone" ""
    instrumentation_library_name := dictGet resourceAttrs "telemetry.sdk.name" ""
    instrumentation_library_version := dictGet resourceAttrs "telemetry.sdk.version" "" }

/-- A Python numeric metric value: `int` or `float` (`bool`, a Python `int`
subtype, is excluded by the source's own `is_int` test and not modelled). -/
inductive PyNum
  | int (n : ℤ)
  | float (q : ℚ)
deriving DecidableEq, Repr

/-- A row of the ClickHouse `metrics` table. -/
structure ChMetricRow where
  metric_id : String
  metric_name : String
  metric_type : String
  metric_unit : String
  metric_description : String
  timestamp : String
  timestamp_ns : ℤ
  time_window_start : String
  time_window_end : String
  value_int : ℤ
  value_double : ℚ
  is_monotonic : Nat
  aggregation_temporality : String
  histogram_count : Nat
  histogram_sum : ℚ
  histogram_min : ℚ
  histogram_max : ℚ
  histogram_bucket_counts : List Nat
  histogram_explicit_bounds : List ℚ
  summary_count : Nat
  summary_sum : ℚ
  quantile_values : List (String × ℚ)
  project_name : String
  project_version : String
  service_name : String
  service_namespace : String
  service_instance_id : String
  environment : String
  hostname : String
  attributes : List (String × String)
  user_id : String
  session_id : String
  os_type : String
  os_version : String
  runtime_name : String
  runtime_version : String
  cloud_provider : String
  cloud_region : String
  cloud_availability_zone : String
  instrumentation_library_name : String
  instrumentation_library_version : String
  schema_url : String
deriving DecidableEq, Repr

/-- A row of the ClickHouse `logs` table. -/
structure ChLogRow where
  log_id : String
  trace_id : String
  span_id : String
  timestamp : String
  timestamp_ns : ℤ
  observed_timestamp : String
  observed_timestamp_ns : ℤ
  severity_text : String
  severity_number : Nat
  body : String
  body_type : String
  project_name : String
  project_version : String
  service_name : String
  service_namespace : String
  service_instance_id : String
  environment : String
  hostname : String
  attributes : List (String × String)
  user_id : String
  session_id : String
  os_type : String
  os_version : String
  runtime_name : String
  runtime_version : String
  cloud_provider : String
  cloud_region : String
  cloud_availability_zone : String
  instrumentation_library_name : String
  instrumentation_library_version : String
  schema_url : String
  exception_type : String
  exception_message : String
  exception_stacktrace : String
  is_exception : Nat
deriving DecidableEq, Repr

/-- The `payload` dict accepted by the dict calling convention of
`ClickHouseBackend.send_metric`; `Option` fields are keys the dict may lack. -/
structure MetricDict where
  metricName : Option String
  value : Option PyNum
  metricType : Option String
  unit : Option String
  attributes : Option (List (String × String))
  resourceAttributes : Option (List (String × String))
  timestamp : Option PyDatetime
deriving DecidableEq, Repr

/-- The runtime type of the `payload` argument of `send_metric`: a dict, a
string (legacy: the metric name), or `None`. -/
inductive MetricPayload
  | dict (d : MetricDict)
  | str (s : String)
  | none
deriving DecidableEq, Repr

/-- The `payload` dict accepted by the dict calling convention of
`ClickHouseBackend.send_log`. -/
structure LogDict where
  message : Option String
  level : Option String
  attributes : Option (List (String × String))
  resourceAttributes : Option (List (String × String))
  timestamp : Option PyDatetime
  traceId : Option String
  spanId : Option String
deriving DecidableEq, Repr

/-- The runtime type of the `payload` argument of `send_log`. -/
inductive LogPayload
  | dict (d : LogDict)
  | str (s : String)
  | none
deriving DecidableEq, Repr

/-- The severity map of `send_log` (severity number by upper-cased level;
unknown levels default to 9/INFO). -/
def severityNumber (levelUpper : String) : Nat :=
  if levelUpper = "TRACE" then 1
  else if levelUpper = "DEBUG" then 5
  else if levelUpper = "INFO" then 9
  else if levelUpper = "WARN" then 13
  else if levelUpper = "ERROR" then 17
  else if levelUpper = "FATAL" then 21
  else 9

/-! ## ClickHouse backend: state and operations -/

/-- Constructor arguments of `ClickHouseBackend` (the stored `endpoint` is the
constructor argument after `rstrip("/")`). -/
structure ChConfig where
  endpoint : String
  database : String
  tracesTable : String
  metricsTable : String
  logsTable : String
  username : String
  password : String
  timeout : Nat
  batchSize : Nat
  compressionEnabled : Bool
  maxRetries : Nat
  retryBackoffBase : ℚ
  verbose : Bool
deriving DecidableEq, Repr

/-- Ambient effects of a ClickHouse backend run: gzip, the per-row
`json.dumps` serializers, `json.loads`-succeeds on a string (for the log body
type sniff), and the network oracle. -/
structure ChEnv where
  cfg : ChConfig
  gz : List Nat → List Nat
  serT : ChTraceRow → List Nat
  serM : ChMetricRow → List Nat
  serL : ChLogRow → List Nat
  isJson : String → Bool
  net : Nat → NetOutcome

/-- The mutable state of a `ClickHouseBackend` instance: the three per-signal
batches. -/
structure ChState where
  traceBatch : List ChTraceRow
  metricBatch : List ChMetricRow
  logBatch : List ChLogRow
deriving DecidableEq, Repr

/-- The backend state right after construction. -/
def ChState.empty : ChState := { traceBatch := [], metricBatch := [], logBatch := [] }

/-- `urllib.parse.quote` restricted to the characters the insert query
contains (it only ever encodes the spaces). -/
def urlQuote (s : String) : String :=
  String.mk ((s.data.map (fun c => if c = ' ' then ['%', '2', '0'] else [c])).flatten)

/-- The serialized `JSONEachRow` body of `_insert_batch` and whether it was
gzip-compressed (`compression_enabled` and more than 1024 bytes). -/
def chInsertData (env : ChEnv) (rowsBytes : List (List Nat)) : List Nat × Bool :=
  let data := (rowsBytes.intersperse [10]).flatten
  if env.cfg.compressionEnabled ∧ 1024 < data.length then (env.gz data, true)
  else (data, false)

/-- The HTTP POST `_insert_batch` issues (URL with the quoted `INSERT` query,
optional gzip marker, optional Basic credential). -/
def chInsertRequest (env : ChEnv) (table : String) (rowsBytes : List (List Nat)) : HttpReq :=
  let dataEnc := chInsertData env rowsBytes
  { url := env.cfg.endpoint ++ "/?query=" ++
      urlQuote ("INSERT INTO " ++ env.cfg.database ++ "." ++ table ++ " FORMAT JSONEachRow")
    body := dataEnc.1
    contentEncodingGzip := dataEnc.2
    authBasic := if env.cfg.username ≠ "" then
        some (env.cfg.username ++ ":" ++ env.cfg.password)
      else Option.none }

/-- The retry loop of `_insert_batch` (`for attempt in range(self.max_retries)`).
200 → success; other statuses below 500 and `HTTPError`s below 500 → `False`;
5xx and every exception (the clause catches `Exception`) → retry after a sleep
of `base * 2 ^ attempt` when `attempt < max_retries - 1`. -/
def chInsertLoop (env : ChEnv) (req : HttpReq) : Nat → Nat → World → Bool × World
  | 0, _, w => (false, w)
  | fuel + 1, attempt, w =>
    let w1 := w.push req
    let next : World → Bool × World := fun w2 =>
      let w3 := if attempt < env.cfg.maxRetries - 1 then
          w2.sleep (env.cfg.retryBackoffBase * 2 ^ attempt)
        else w2
      chInsertLoop env req fuel (attempt + 1) w3
    match env.net w.reqs.length with
    | .status code =>
      if code = 200 then (true, w1)
      else if 500 ≤ code then next w1
      else (false, w1)
    | .raiseHttp code => if code < 500 then (false, w1) else next w1
    | .raiseUrl => next w1
    | .raiseTimeout => next w1
    | .raiseOther => next w1

/-- `ClickHouseBackend._insert_batch`: empty row lists succeed immediately;
otherwise serialize, optionally compress, and run the retry loop.  Every
exception its body can raise is caught inside the loop, so the result is
always `ok`. -/
def chInsertBatch (env : ChEnv) (table : String) (rowsBytes : List (List Nat))
    (w : World) : Except (PyErr × World) (Bool × World) :=
  if rowsBytes.isEmpty then .ok (true, w)
  else .ok (chInsertLoop env (chInsertRequest env table rowsBytes) env.cfg.maxRetries 0 w)

/-- The traces section of `ClickHouseBackend.flush`: skip an empty batch;
otherwise insert it, and clear it in a `finally` whether the insert succeeded,
failed or raised (the error branch mirrors `finally` followed by
re-raising). -/
def chFlushTraces (env : ChEnv) (s : ChState) (w : World) :
    Except (PyErr × ChState × World) (Bool × ChState × World) :=
  if s.traceBatch.isEmpty then .ok (true, s, w)
  else
    match chInsertBatch env env.cfg.tracesTable (s.traceBatch.map env.serT) w with
    | .ok (b, w') => .ok (b, { s with traceBatch := [] }, w')
    | .error (e, w') => .error (e, { s with traceBatch := [] }, w')

/-- The metrics section of `flush`. -/
def chFlushMetrics (env : ChEnv) (s : ChState) (w : World) :
    Except (PyErr × ChState × World) (Bool × ChState × World) :=
  if s.metricBatch.isEmpty then .ok (true, s, w)
  else
    match chInsertBatch env env.cfg.metricsTable (s.metricBatch.map env.serM) w with
    | .ok (b, w') => .ok (b, { s with metricBatch := [] }, w')
    | .error (e, w') => .error (e, { s with metricBatch := [] }, w')

/-- The logs section of `flush`. -/
def chFlushLogs (env : ChEnv) (s : ChState) (w : World) :
    Except (PyErr × ChState × World) (Bool × ChState × World) :=
  if s.logBatch.isEmpty then .ok (true, s, w)
  else
    match chInsertBatch env env.cfg.logsTable (s.logBatch.map env.serL) w with
    | .ok (b, w') => .ok (b, { s with logBatch := [] }, w')
    | .error (e, w') => .error (e, { s with logBatch := [] }, w')

/-- `ClickHouseBackend.flush`: attempt the three batches in order (a failure
in one does not skip the others); the result is the conjunction of the three
outcomes.  `flush` itself has no `except` clause, so an exception escaping a
section would propagate. -/
def chFlush (env : ChEnv) (s : ChState) (w : World) :
    Except (PyErr × ChState × World) (Bool × ChState × World) :=
  match chFlushTraces env s w with
  | .error r => .error r
  | .ok (b1, s1, w1) =>
    match chFlushMetrics env s1 w1 with
    | .error r => .error r
    | .ok (b2, s2, w2) =>
      match chFlushLogs env s2 w2 with
      | .error r => .error r
      | .ok (b3, s3, w3) => .ok (b1 && b2 && b3, s3, w3)

/-- `ClickHouseBackend.add_to_batch`: transform, append to the trace batch,
auto-flush (result discarded) once the batch reaches `batch_size`. -/
def chAddToBatch (env : ChEnv) (span : OtlpSpan) (nowNs : Nat) (s : ChState)
    (w : World) : Except (PyErr × ChState × World) (ChState × World) :=
  let row := transformOtlpToClickhouse span nowNs
  let s1 := { s with traceBatch := s.traceBatch ++ [row] }
  if env.cfg.batchSize ≤ s1.traceBatch.length then
    match chFlush env s1 w with
    | .ok (_, s2, w2) => .ok (s2, w2)
    | .error r => .error r
  else .ok (s1, w)

/-- `ClickHouseBackend.send_trace`: `add_to_batch` under a `try`, any
exception → `False`. -/
def chSendTrace (env : ChEnv) (span : OtlpSpan) (nowNs : Nat) (s : ChState)
    (w : World) : Bool × ChState × World :=
  match chAddToBatch env span nowNs s w with
  | .ok (s1, w1) => (true, s1, w1)
  | .error (_, s1, w1) => (false, s1, w1)

/-- Whether a `send_metric` payload argument is a dict
(`isinstance(payload, dict)`). -/
def MetricPayload.isDict : MetricPayload → Bool
  | .dict _ => true
  | _ => false

/-- The keyword arguments of `send_metric` besides `payload` (with their
Python defaults; `kwMetricName` is a `metric_name` passed through `**kwargs`). -/
structure MetricKwargs where
  payload : MetricPayload
  value : Option PyNum
  metricType : String
  unit : String
  attributes : Option (List (String × String))
  resourceAttributes : Option (List (String × String))
  timestamp : Option PyDatetime
  kwMetricName : Option String

/-- The metric-type normalization of `send_metric`: upper-case, map `COUNTER`
to `SUM` for the schema enum, and default unrecognized types to `GAUGE`. -/
def normalizeMetricType (metricType : String) : String :=
  let c := metricType.toUpper
  let c := if c = "COUNTER" then "SUM" else c
  if ["GAUGE", "SUM", "HISTOGRAM", "EXPONENTIAL_HISTOGRAM",
      "SUMMARY"].contains c then c
  else "GAUGE"

/-- The metric row `send_metric` builds once validation has passed. -/
def buildMetricRow (metricName : String) (metricValue : PyNum)
    (clickhouseType unit : String) (attributes resourceAttributes : List (String × String))
    (timestamp : PyDatetime) (uuid : String) : ChMetricRow :=
  let timestampNs := timestamp.timestampNs
  let isInt := match metricValue with | .int _ => true | .float _ => false
  { metric_id := uuid
    metric_name := metricName
    metric_type := clickhouseType
    metric_unit := unit
    metric_description := ""
    timestamp := timestamp.str
    timestamp_ns := timestampNs
    time_window_start := timestamp.str
    time_window_end := timestamp.str
    value_int := if isInt then (match metricValue with | .int n => n | .float _ => 0) else 0
    value_double := if isInt then 0 else (match metricValue with | .int _ => 0 | .float q => q)
    is_monotonic := if clickhouseType = "SUM" then 1 else 0
    aggregation_temporality := if clickhouseType = "SUM" then "DELTA" else "UNSPECIFIED"
    histogram_count := 0
    histogram_sum := 0
    histogram_min := 0
    histogram_max := 0
    histogram_bucket_counts := []
    histogram_explicit_bounds := []
    summary_count := 0
    summary_sum := 0
    quantile_values := []
    project_name := dictGet resourceAttributes "project.name" ""
    project_version := dictGet resourceAttributes "project.version" ""
    service_name := dictGet resourceAttributes "service.name" "unknown"
    service_namespace := dictGet resourceAttributes "service.namespace" ""
    service_instance_id := dictGet resourceAttributes "service.instance.id" ""
    environment := dictGet resourceAttributes "deployment.environment" "production"
    hostname := dictGet resourceAttributes "host.name" ""
    attributes := attributes
    user_id := dictGet attributes "user.id" ""
    session_id := dictGet attributes "session.id" ""
    os_type := dictGet resourceAttributes "os.type" ""
    os_version := dictGet resourceAttributes "os.version" ""
    runtime_name := dictGet resourceAttributes "process.runtime.name" ""
    runtime_version := dictGet resourceAttributes "process.runtime.version" ""
    cloud_provider := dictGet resourceAttributes "cloud.provider" ""
    cloud_region := dictGet resourceAttributes "cloud.region" ""
    cloud_availability_zone := dictGet resourceAttributes "cloud.availability_zone" ""
    instrumentation_library_name := dictGet resourceAttributes "telemetry.sdk.name" ""
    instrumentation_library_version := dictGet resourceAttributes "telemetry.sdk.version" ""
    schema_url := "" }

/-- The tail of `send_metric`'s body: append the built row to the metric batch
and auto-flush (result discarded, `True` returned) once it reaches
`batch_size`. -/
def chAppendMetric (env : ChEnv) (row : ChMetricRow) (s : ChState) (w : World) :
    Except (PyErr × ChState × World) (Bool × ChState × World) :=
  let s1 := { s with metricBatch := s.metricBatch ++ [row] }
  if env.cfg.batchSize ≤ s1.metricBatch.length then
    match chFlush env s1 w with
    | .ok (_, s2, w2) => .ok (true, s2, w2)
    | .error r => .error r
  else .ok (true, s1, w)

/-- The tail of `send_log`'s body: append the built row to the log batch and
auto-flush once it reaches `batch_size`. -/
def chAppendLog (env : ChEnv) (row : ChLogRow) (s : ChState) (w : World) :
    Except (PyErr × ChState × World) (Bool × ChState × World) :=
  let s1 := { s with logBatch := s.logBatch ++ [row] }
  if env.cfg.batchSize ≤ s1.logBatch.length then
    match chFlush env s1 w with
    | .ok (_, s2, w2) => .ok (true, s2, w2)
    | .error r => .error r
  else .ok (true, s1, w)

/-- The `try` body of `ClickHouseBackend.send_metric`: extraction per calling
convention, validation, row construction, append, auto-flush at
`batch_size`. -/
def chSendMetricBody (env : ChEnv) (a : MetricKwargs) (uuid : String)
    (nowDt : PyDatetime) (s : ChState) (w : World) :
    Except (PyErr × ChState × World) (Bool × ChState × World) :=
  let ext :=
    match a.payload with
    | .dict d => (d.metricName.getD "", d.value.getD (.float 0), d.metricType.getD "gauge",
        d.unit.getD "", d.attributes, d.resourceAttributes, d.timestamp)
    | .str ms => (ms, a.value.getD (.float 0), a.metricType, a.unit, a.attributes,
        a.resourceAttributes, a.timestamp)
    | .none => (a.kwMetricName.getD "", a.value.getD (.float 0), a.metricType, a.unit,
        a.attributes, a.resourceAttributes, a.timestamp)
  let (metricName, metricValue, metricType, unit, attrsO, resO, tsO) := ext
  if metricName = "" then .ok (false, s, w)
  else if a.value.isNone ∧ ¬a.payload.isDict then .ok (false, s, w)
  else
    let attributes := attrsO.getD []
    let resourceAttributes := resO.getD []
    let timestamp := tsO.getD nowDt
    chAppendMetric env (buildMetricRow metricName metricValue
      (normalizeMetricType metricType) unit attributes resourceAttributes
      timestamp uuid) s w

/-- `ClickHouseBackend.send_metric`: the body under a `try`, any exception →
`False`. -/
def chSendMetric (env : ChEnv) (a : MetricKwargs) (uuid : String)
    (nowDt : PyDatetime) (s : ChState) (w : World) : Bool × ChState × World :=
  match chSendMetricBody env a uuid nowDt s w with
  | .ok r => r
  | .error (_, s1, w1) => (false, s1, w1)

/-- The keyword arguments of `send_log` besides `payload` (with their Python
defaults; `kwMessage` is a `message` passed through `**kwargs`). -/
structure LogKwargs where
  payload : LogPayload
  level : String
  attributes : Option (List (String × String))
  resourceAttributes : Option (List (String × String))
  timestamp : Option PyDatetime
  traceId : String
  spanId : String
  kwMessage : Option String

/-- The log row `send_log` builds. -/
def buildLogRow (env : ChEnv) (message levelUpper traceId spanId : String)
    (attributes resourceAttributes : List (String × String))
    (timestamp obsDt : PyDatetime) (uuid : String) : ChLogRow :=
  { log_id := uuid
    trace_id := traceId
    span_id := spanId
    timestamp := timestamp.str
    timestamp_ns := timestamp.timestampNs
    observed_timestamp := obsDt.str
    observed_timestamp_ns := obsDt.timestampNs
    severity_text := levelUpper
    severity_number := severityNumber levelUpper
    body := message
    body_type := if env.isJson message then "JSON" else "STRING"
    project_name := dictGet resourceAttributes "project.name" ""
    project_version := dictGet resourceAttributes "project.version" ""
    service_name := dictGet resourceAttributes "service.name" "unknown"
    service_namespace := dictGet resourceAttributes "service.namespace" ""
    service_instance_id := dictGet resourceAttributes "service.instance.id" ""
    environment := dictGet resourceAttributes "deployment.environment" "production"
    hostname := dictGet resourceAttributes "host.name" ""
    attributes := attributes
    user_id := dictGet attributes "user.id" ""
    session_id := dictGet attributes "session.id" ""
    os_type := dictGet resourceAttributes "os.type" ""
    os_version := dictGet resourceAttributes "os.version" ""
    runtime_name := dictGet resourceAttributes "process.runtime.name" ""
    runtime_version := dictGet resourceAttributes "process.runtime.version" ""
    cloud_provider := dictGet resourceAttributes "cloud.provider" ""
    cloud_region := dictGet resourceAttributes "cloud.region" ""
    cloud_availability_zone := dictGet resourceAttributes "cloud.availability_zone" ""
    instrumentation_library_name := dictGet resourceAttributes "telemetry.sdk.name" ""
    instrumentation_library_version := dictGet resourceAttributes "telemetry.sdk.version" ""
    schema_url := ""
    exception_type := dictGet attributes "exception.type" ""
    exception_message := dictGet attributes "exception.message" ""
    exception_stacktrace := dictGet attributes "exception.stacktrace" ""
    is_exception := if dictHas attributes "exception.type" then 1 else 0 }

/-- The `try` body of `ClickHouseBackend.send_log`: extraction per calling
convention (empty messages are allowed), trace/span-id recovery from the
attribute map, row construction, append, auto-flush at `batch_size`.
`obsDt` is the ambient `datetime.now(UTC)` taken for `observed_timestamp`. -/
def chSendLogBody (env : ChEnv) (a : LogKwargs) (uuid : String)
    (nowDt obsDt : PyDatetime) (s : ChState) (w : World) :
    Except (PyErr × ChState × World) (Bool × ChState × World) :=
  let ext :=
    match a.payload with
    | .dict d => (d.message.getD "", d.level.getD "INFO", d.attributes,
        d.resourceAttributes, d.timestamp, d.traceId.getD "", d.spanId.getD "")
    | .str ms => (ms, a.level, a.attributes, a.resourceAttributes, a.timestamp,
        a.traceId, a.spanId)
    | .none => (a.kwMessage.getD "", a.level, a.attributes, a.resourceAttributes,
        a.timestamp, a.traceId, a.spanId)
  let (message, level, attrsO, resO, tsO, traceId, spanId) := ext
  let attributes := attrsO.getD []
  let resourceAttributes := resO.getD []
  let timestamp := tsO.getD nowDt
  let traceId := if traceId = "" ∧ dictHas attributes "trace_id" then
      dictGet attributes "trace_id" ""
    else traceId
  let spanId := if spanId = "" ∧ dictHas attributes "span_id" then
      dictGet attributes "span_id" ""
    else spanId
  chAppendLog env (buildLogRow env message level.toUpper traceId spanId attributes
    resourceAttributes timestamp obsDt uuid) s w

/-- `ClickHouseBackend.send_log`: the body under a `try`, any exception →
`False`. -/
def chSendLog (env : ChEnv) (a : LogKwargs) (uuid : String)
    (nowDt obsDt : PyDatetime) (s : ChState) (w : World) : Bool × ChState × World :=
  match chSendLogBody env a uuid nowDt obsDt s w with
  | .ok r => r
  | .error (_, s1, w1) => (false, s1, w1)

/-! ## Telemetry client (`client.py`)

`TelemetryClient` builds an OTLP envelope itself and posts it with a single
`urlopen` call.  Event-data values are arbitrary Python objects, modelled by
`PyVal`; the serialization of the structured payload is a parameter. -/

/-- A Python value as `_create_attributes` classifies it: `bool`, `int`,
`float`, `str`, or any other object (`other s` carries its `str()`). -/
inductive PyVal
  | bool (b : Bool)
  | int (n : ℤ)
  | float (q : ℚ)
  | str (s : String)
  | other (reprStr : String)
deriving DecidableEq, Repr

/-- Python `str(value)`. -/
def pyStr : PyVal → String
  | .bool b => pyBoolStr b
  | .int n => toString n
  | .float q => pyFloatRepr q
  | .str s => s
  | .other r => r

/-- Python string slicing `s[:n]`. -/
def pyTake (n : Nat) (s : String) : String := String.mk (s.data.take n)

/-- An OTLP attribute value as the client emits it. -/
inductive AttrValue
  | stringValue (s : String)
  | boolValue (b : Bool)
  | doubleValue (q : ℚ)
deriving DecidableEq, Repr

/-- One `{"key": ..., "value": {...}}` attribute of the client's payload. -/
structure OtlpKV where
  key : String
  value : AttrValue
deriving DecidableEq, Repr

/-- `TelemetryClient` state after construction. -/
structure Client where
  projectName : String
  projectVersion : String
  organization : String
  timeout : Nat
  endpoint : String
  userId : String
  sessionId : String
  enabled : Bool
  verbose : Bool
deriving DecidableEq, Repr

/-- The machine facts `_get_system_info` collects from `platform`/`sys`/`os`. -/
structure SystemInfo where
  os : String
  osVersion : String
  pythonVersion : String
  architecture : String
  isDocker : Bool
deriving DecidableEq, Repr

/-- The `system_info` dict of `_get_system_info`, in insertion order. -/
def getSystemInfo (c : Client) (sys : SystemInfo) : List (String × PyVal) :=
  [("os", .str sys.os),
   ("os_version", .str sys.osVersion),
   ("python_version", .str sys.pythonVersion),
   ("architecture", .str sys.architecture),
   ("is_docker", .bool sys.isDocker),
   ("project_name", .str c.projectName),
   ("project_version", .str c.projectVersion),
   ("organization", .str c.organization)]

/-- One iteration of the system-info loop of `_create_attributes`: bools →
`boolValue`, ints/floats → `doubleValue` (`float(value)`, one float rounding
for an int), anything else → `stringValue` of `str(value)`, *not* truncated. -/
def systemAttribute (p : String × PyVal) : OtlpKV :=
  match p.2 with
  | .bool b => { key := "system." ++ p.1, value := .boolValue b }
  | .int n => { key := "system." ++ p.1, value := .doubleValue (rd n) }
  | .float q => { key := "system." ++ p.1, value := .doubleValue q }
  | v => { key := "system." ++ p.1, value := .stringValue (pyStr v) }

/-- One iteration of the event-data loop of `_create_attributes`: bools →
`boolValue`, ints/floats → `doubleValue`, anything else → `stringValue` of
`str(value)` truncated to 500 characters. -/
def dataAttribute (p : String × PyVal) : OtlpKV :=
  match p.2 with
  | .bool b => { key := p.1, value := .boolValue b }
  | .int n => { key := p.1, value := .doubleValue (rd n) }
  | .float q => { key := p.1, value := .doubleValue q }
  | v => { key := p.1, value := .stringValue (pyTake 500 (pyStr v)) }

/-- `TelemetryClient._create_attributes`: the system-info attributes followed
by the converted event data. -/
def createAttributes (c : Client) (sys : SystemInfo) (data : List (String × PyVal)) :
    List OtlpKV :=
  (getSystemInfo c sys).map systemAttribute ++ data.map dataAttribute

/-- The OTLP envelope `_send_event` builds (one resource, one scope, one
span). -/
structure ClientPayload where
  resourceAttributes : List OtlpKV
  scopeName : String
  scopeVersion : String
  traceId : String
  spanId : String
  spanName : String
  spanKind : String
  startTimeUnixNano : Nat
  endTimeUnixNano : Nat
  attributes : List OtlpKV
  statusCode : String
deriving DecidableEq, Repr

/-- Ambient effects of a client call: system info, payload serializer
(`json.dumps(payload).encode()`), network oracle, the generated trace/span ids
and the two `time.time()` clock reads (already scaled to nanoseconds). -/
structure ClientEnv where
  sys : SystemInfo
  ser : ClientPayload → List Nat
  net : Nat → NetOutcome
  traceId : String
  spanId : String
  startNowNs : Nat
  endNowNs : Nat

/-- The payload construction of `_send_event`. -/
def clientBuildPayload (c : Client) (env : ClientEnv) (eventType : String)
    (data : List (String × PyVal)) : ClientPayload :=
  { resourceAttributes :=
      [{ key := "service.name", value := .stringValue c.projectName },
       { key := "service.version", value := .stringValue c.projectVersion },
       { key := "service.organization", value := .stringValue c.organization },
       { key := "user.id", value := .stringValue c.userId },
       { key := "session.id", value := .stringValue c.sessionId },
       { key := "telemetry.sdk.name", value := .stringValue "automagik-telemetry" },
       { key := "telemetry.sdk.version", value := .stringValue "0.1.0" }]
    scopeName := c.projectName ++ ".telemetry"
    scopeVersion := c.projectVersion
    traceId := env.traceId
    spanId := env.spanId
    spanName := eventType
    spanKind := "SPAN_KIND_INTERNAL"
    startTimeUnixNano := env.startNowNs
    endTimeUnixNano := env.endNowNs
    attributes := createAttributes c env.sys data
    statusCode := "STATUS_CODE_OK" }

/-- `TelemetryClient._send_event`: a silent no-op when disabled; otherwise
build the payload, issue one POST, examine the status (non-200 is only
logged); the `except (URLError, HTTPError, TimeoutError)` and
`except Exception` clauses catch every exception `urlopen` can raise. -/
def clientSendEvent (c : Client) (env : ClientEnv) (eventType : String)
    (data : List (String × PyVal)) (w : World) : Except (PyErr × World) World :=
  if !c.enabled then .ok w
  else
    let payload := clientBuildPayload c env eventType data
    let req : HttpReq :=
      { url := c.endpoint
        body := env.ser payload
        contentEncodingGzip := false
        authBasic := Option.none }
    let w1 := w.push req
    match env.net w.reqs.length with
    | .status _ => .ok w1
    | .raiseHttp _ => .ok w1
    | .raiseUrl => .ok w1
    | .raiseTimeout => .ok w1
    | .raiseOther => .ok w1

/-- Python dict update `d[k] = v` over client event data. -/
def pvInsert (l : List (String × PyVal)) (k : String) (v : PyVal) :
    List (String × PyVal) :=
  if l.any (fun p => p.1 == k) then l.map (fun p => if p.1 == k then (k, v) else p)
  else l ++ [(k, v)]

/-- Python `{**base, **upd}`-style merge (later keys win). -/
def pvMerge (base upd : List (String × PyVal)) : List (String × PyVal) :=
  upd.foldl (fun acc p => pvInsert acc p.1 p.2) base

/-- `TelemetryClient.track_event`. -/
def clientTrackEvent (c : Client) (env : ClientEnv) (eventName : String)
    (attributes : Option (List (String × PyVal))) (w : World) :
    Except (PyErr × World) World :=
  clientSendEvent c env eventName (attributes.getD []) w

/-- `TelemetryClient.track_error`; the exception argument is abstracted to its
type name and message. -/
def clientTrackError (c : Client) (env : ClientEnv) (errorType errorMessage : String)
    (context : Option (List (String × PyVal))) (w : World) :
    Except (PyErr × World) World :=
  let data := pvMerge
    [("error_type", .str errorType), ("error_message", .str (pyTake 500 errorMessage))]
    (context.getD [])
  clientSendEvent c env "automagik.error" data w

/-- `TelemetryClient.track_metric`. -/
def clientTrackMetric (c : Client) (env : ClientEnv) (metricName : String)
    (value : PyVal) (attributes : Option (List (String × PyVal))) (w : World) :
    Except (PyErr × World) World :=
  let data := pvMerge [("value", value)] (attributes.getD [])
  clientSendEvent c env metricName data w

/-! ## Auxiliary definitions for the claims -/

/-- Outcomes both backends classify as retryable: a 5xx response or a 5xx
`HTTPError`, an unreachable host (`URLError`), or a timeout. -/
def Retryable (o : NetOutcome) : Prop :=
  (∃ c, 500 ≤ c ∧ (o = .status c ∨ o = .raiseHttp c)) ∨
    o = .raiseUrl ∨ o = .raiseTimeout

/-- A 4xx outcome: response or `HTTPError` with a status in `[400, 500)`. -/
def Is4xx (o : NetOutcome) : Prop :=
  ∃ c, 400 ≤ c ∧ c < 500 ∧ (o = .status c ∨ o = .raiseHttp c)

/-- `n` successive `send_trace` calls on a freshly constructed ClickHouse
backend (for the batching claim C4). -/
def chSendTraceIter (env : ChEnv) (span : OtlpSpan) (nowNs : Nat) :
    Nat → ChState × World
  | 0 => (ChState.empty, World.empty)
  | n + 1 =>
    let sw := chSendTraceIter env span nowNs n
    let r := chSendTrace env span nowNs sw.1 sw.2
    (r.2.1, r.2.2)

/-- `n` successive `send_metric` calls on a freshly constructed ClickHouse
backend. -/
def chSendMetricIter (env : ChEnv) (a : MetricKwargs) (uuid : String)
    (nowDt : PyDatetime) : Nat → ChState × World
  | 0 => (ChState.empty, World.empty)
  | n + 1 =>
    let sw := chSendMetricIter env a uuid nowDt n
    let r := chSendMetric env a uuid nowDt sw.1 sw.2
    (r.2.1, r.2.2)

/-- `n` successive `send_log` calls on a freshly constructed ClickHouse
backend. -/
def chSendLogIter (env : ChEnv) (a : LogKwargs) (uuid : String)
    (nowDt obsDt : PyDatetime) : Nat → ChState × World
  | 0 => (ChState.empty, World.empty)
  | n + 1 =>
    let sw := chSendLogIter env a uuid nowDt obsDt n
    let r := chSendLog env a uuid nowDt obsDt sw.1 sw.2
    (r.2.1, r.2.2)

/-! ### Executable gzip models for the compression claim

`gzip.compress` is abstracted as a parameter.  Two executable instantiations
are used: `gzipStored` is a literal gzip stream built from a single stored
(uncompressed) DEFLATE block — it shares the gzip container's fixed overhead
(every gzip stream has a 10-byte header and an 8-byte trailer, so no gzip
output is shorter than 18 bytes), which is the only property the compression
counterexample rests on; and `gzPack`/`gunzipPack` form a round-tripping
compressor pair used to instantiate the compression theorem's hypotheses. -/

/-- One bit step of CRC-32 (IEEE polynomial, reflected). -/
def crc32Step (c : Nat) : Nat := if c % 2 = 1 then (c / 2) ^^^ 0xEDB88320 else c / 2

/-- CRC-32 update with one byte. -/
def crc32Byte (c b : Nat) : Nat :=
  (List.range 8).foldl (fun acc _ => crc32Step acc) (c ^^^ b % 256)

/-- CRC-32 of a byte list. -/
def crc32 (bytes : List Nat) : Nat :=
  (bytes.foldl crc32Byte 0xFFFFFFFF) ^^^ 0xFFFFFFFF

/-- A 32-bit little-endian encoding. -/
def le32 (n : Nat) : List Nat :=
  [n % 256, n / 256 % 256, n / 2 ^ 16 % 256, n / 2 ^ 24 % 256]

/-- A gzip stream holding `p` in a single stored DEFLATE block (valid for
`p.length < 65536`, which covers every payload considered here): 10-byte
gzip header, the block header `BFINAL=1, BTYPE=00` with `LEN`/`NLEN`, the raw
bytes, then the CRC-32 and length trailer. -/
def gzipStored (p : List Nat) : List Nat :=
  [31, 139, 8, 0, 0, 0, 0, 0, 0, 255] ++
    [1, p.length % 256, p.length / 256 % 256,
      (65535 - p.length % 65536) % 256, (65535 - p.length % 65536) / 256 % 256] ++
    p ++ le32 (crc32 p) ++ le32 (p.length % 2 ^ 32)

/-- Decoder for `gzipStored` streams: read `LEN` from the stored-block header
and take that many bytes. -/
def gunzipStored (q : List Nat) : List Nat :=
  match q.drop 10 with
  | _ :: l0 :: l1 :: _ :: _ :: tail => tail.take (l0 + 256 * l1)
  | _ => []

/-- An injective code of byte lists into one number (a "perfect compressor"
used only to witness satisfiability of the round-trip hypothesis). -/
def packList : List Nat → Nat
  | [] => 0
  | a :: l => Nat.pair a (packList l) + 1

/-- Fuelled inverse of `packList`. -/
def unpackList : Nat → Nat → List Nat
  | 0, _ => []
  | f + 1, n =>
    if n = 0 then [] else (n - 1).unpair.1 :: unpackList f (n - 1).unpair.2

/-- The witness compressor: any byte list becomes a single (huge) byte. -/
def gzPack (p : List Nat) : List Nat := [packList p]

/-- The witness decompressor. -/
def gunzipPack (q : List Nat) : List Nat :=
  match q with
  | [n] => unpackList n n
  | _ => []

/-- The effect log of an `Except`-valued backend result (exceptions carry the
effects performed before the raise). -/
def exWorld : Except (PyErr × World) (Bool × World) → World
  | .ok (_, w) => w
  | .error (_, w) => w

/-! ### Concrete fixtures

Small concrete backend instances used to evaluate the theorems on explicit
inputs. -/

/-- An OTLP backend fixture: parameterized by oracle, retry budget,
compression threshold and compressor. -/
def testOtlpEnv (net : Nat → NetOutcome) (maxRetries threshold : Nat)
    (gz : List Nat → List Nat) : OtlpEnv :=
  { cfg :=
      { endpoint := "http://t/v1/traces"
        metricsEndpoint := "http://t/v1/metrics"
        logsEndpoint := "http://t/v1/logs"
        timeout := 5
        maxRetries := maxRetries
        retryBackoffBase := 1
        compressionEnabled := true
        compressionThreshold := threshold
        verbose := false }
    gz := gz
    net := net }

/-- A ClickHouse backend fixture: parameterized by oracle, retry budget and
batch size. -/
def testChEnv (net : Nat → NetOutcome) (maxRetries batchSize : Nat) : ChEnv :=
  { cfg :=
      { endpoint := "http://ch:8123"
        database := "telemetry"
        tracesTable := "traces"
        metricsTable := "metrics"
        logsTable := "logs"
        username := ""
        password := ""
        timeout := 5
        batchSize := batchSize
        compressionEnabled := false
        maxRetries := maxRetries
        retryBackoffBase := 1
        verbose := false }
    gz := fun p => p
    serT := fun _ => [97]
    serM := fun _ => [97]
    serL := fun _ => [97]
    isJson := fun _ => false
    net := net }

/-- A client fixture with an explicit enabled flag. -/
def testClient (projectName : String) (enabled : Bool) : Client :=
  { projectName := projectName
    projectVersion := "1.0.0"
    organization := "namastex"
    timeout := 5
    endpoint := "http://t/v1/traces"
    userId := "u"
    sessionId := "s"
    enabled := enabled
    verbose := false }

/-- A client-environment fixture. -/
def testClientEnv (net : Nat → NetOutcome) : ClientEnv :=
  { sys :=
      { os := "Linux"
        osVersion := "6.1"
        pythonVersion := "3.12.0"
        architecture := "x86_64"
        isDocker := false }
    ser := fun _ => [97]
    net := net
    traceId := "0123456789abcdef0123456789abcdef"
    spanId := "0123456789abcdef"
    startNowNs := 0
    endNowNs := 0 }

/-- An OTLP span fixture with a given start timestamp. -/
def testSpan (startNs : Option Nat) : OtlpSpan :=
  { traceId := Option.none
    spanId := Option.none
    parentSpanId := Option.none
    name := Option.none
    kind := Option.none
    startTimeUnixNano := startNs
    endTimeUnixNano := Option.none
    status := Option.none
    attributes := []
    resourceAttributes := [] }

/-- Keyword arguments of a valid legacy-convention `send_metric` call. -/
def testMetricKwargs : MetricKwargs :=
  { payload := .str "m"
    value := some (.float 1)
    metricType := "gauge"
    unit := ""
    attributes := Option.none
    resourceAttributes := Option.none
    timestamp := Option.none
    kwMetricName := Option.none }

/-- Keyword arguments of a `send_metric` call whose dict payload has a name
but no value. -/
def testMetricDictNoValue : MetricKwargs :=
  { payload := .dict
      { metricName := some "m"
        value := Option.none
        metricType := Option.none
        unit := Option.none
        attributes := Option.none
        resourceAttributes := Option.none
        timestamp := Option.none }
    value := Option.none
    metricType := "gauge"
    unit := ""
    attributes := Option.none
    resourceAttributes := Option.none
    timestamp := Option.none
    kwMetricName := Option.none }

/-- Keyword arguments of a plain `send_log` call. -/
def testLogKwargs : LogKwargs :=
  { payload := .str "hello"
    level := "INFO"
    attributes := Option.none
    resourceAttributes := Option.none
    timestamp := Option.none
    traceId := ""
    spanId := ""
    kwMessage := Option.none }

/-! ## Helper lemmas -/

theorem unpackList_packList (l : List Nat) :
    ∀ f, packList l ≤ f → unpackList f (packList l) = l := by
  induction l with
  | nil => intro f _; cases f <;> simp [packList, unpackList]
  | cons a l ih =>
    intro f hf
    match f, hf with
    | f + 1, hf =>
      have hpair : packList l ≤ Nat.pair a (packList l) := Nat.right_le_pair a _
      have hle : packList l ≤ f := by
        have : Nat.pair a (packList l) + 1 ≤ f + 1 := hf
        omega
      simp [packList, unpackList, Nat.unpair_pair, ih f hle]

/-- The witness compressor pair round-trips. -/
theorem gunzipPack_gzPack (p : List Nat) : gunzipPack (gzPack p) = p := by
  simpa [gzPack, gunzipPack] using unpackList_packList p (packList p) le_rfl

/-- `_insert_batch` never lets an exception escape: every branch of its retry
loop handles the outcome. -/
theorem chInsertBatch_ok (env : ChEnv) (table : String) (rows : List (List Nat))
    (w : World) : ∃ b w', chInsertBatch env table rows w = .ok (b, w') := by
  unfold chInsertBatch
  by_cases h : rows.isEmpty
  · exact ⟨true, w, by simp [h]⟩
  · refine ⟨(chInsertLoop env (chInsertRequest env table rows) env.cfg.maxRetries 0 w).1,
      (chInsertLoop env (chInsertRequest env table rows) env.cfg.maxRetries 0 w).2, ?_⟩
    simp [h]

/-- The traces section always returns `ok` with the trace batch cleared and
the other batches untouched. -/
theorem chFlushTraces_ok (env : ChEnv) (s : ChState) (w : World) :
    ∃ b w', chFlushTraces env s w = .ok (b, { s with traceBatch := [] }, w') := by
  rcases s with ⟨t, m, l⟩
  unfold chFlushTraces
  by_cases h : (t : List ChTraceRow).isEmpty
  · have hs : t = [] := by simpa using h
    subst hs
    exact ⟨true, w, by simp⟩
  · obtain ⟨b, w', hb⟩ := chInsertBatch_ok env env.cfg.tracesTable (t.map env.serT) w
    exact ⟨b, w', by simp [h, hb]⟩

/-- The metrics section always returns `ok` with the metric batch cleared. -/
theorem chFlushMetrics_ok (env : ChEnv) (s : ChState) (w : World) :
    ∃ b w', chFlushMetrics env s w = .ok (b, { s with metricBatch := [] }, w') := by
  rcases s with ⟨t, m, l⟩
  unfold chFlushMetrics
  by_cases h : (m : List ChMetricRow).isEmpty
  · have hs : m = [] := by simpa using h
    subst hs
    exact ⟨true, w, by simp⟩
  · obtain ⟨b, w', hb⟩ := chInsertBatch_ok env env.cfg.metricsTable (m.map env.serM) w
    exact ⟨b, w', by simp [h, hb]⟩

/-- The logs section always returns `ok` with the log batch cleared. -/
theorem chFlushLogs_ok (env : ChEnv) (s : ChState) (w : World) :
    ∃ b w', chFlushLogs env s w = .ok (b, { s with logBatch := [] }, w') := by
  rcases s with ⟨t, m, l⟩
  unfold chFlushLogs
  by_cases h : (l : List ChLogRow).isEmpty
  · have hs : l = [] := by simpa using h
    subst hs
    exact ⟨true, w, by simp⟩
  · obtain ⟨b, w', hb⟩ := chInsertBatch_ok env env.cfg.logsTable (l.map env.serL) w
    exact ⟨b, w', by simp [h, hb]⟩

/-- `flush` always returns (no batch's insert can raise) and leaves every
batch empty, whatever the network did. -/
theorem chFlush_ok (env : ChEnv) (s : ChState) (w : World) :
    ∃ b w', chFlush env s w = .ok (b, ChState.empty, w') := by
  obtain ⟨b1, w1, h1⟩ := chFlushTraces_ok env s w
  obtain ⟨b2, w2, h2⟩ := chFlushMetrics_ok env { s with traceBatch := [] } w1
  obtain ⟨b3, w3, h3⟩ := chFlushLogs_ok env
    { s with traceBatch := [], metricBatch := [] } w2
  refine ⟨b1 && b2 && b3, w3, ?_⟩
  unfold chFlush
  simp [h1, h2, h3, ChState.empty] at h2 h3 ⊢

/-- `add_to_batch` never lets an exception escape. -/
theorem chAddToBatch_ok (env : ChEnv) (span : OtlpSpan) (nowNs : Nat) (s : ChState)
    (w : World) : ∃ s' w', chAddToBatch env span nowNs s w = .ok (s', w') := by
  unfold chAddToBatch
  by_cases h : env.cfg.batchSize ≤ s.traceBatch.length + 1
  · obtain ⟨b, w', hf⟩ := chFlush_ok env
      { s with traceBatch := s.traceBatch ++ [transformOtlpToClickhouse span nowNs] } w
    exact ⟨ChState.empty, w', by simp [h, hf]⟩
  · exact ⟨{ s with traceBatch := s.traceBatch ++ [transformOtlpToClickhouse span nowNs] },
      w, by simp [h]⟩

/-- The append/auto-flush tail of `send_metric` never lets an exception
escape. -/
theorem chAppendMetric_ok (env : ChEnv) (row : ChMetricRow) (s : ChState)
    (w : World) : ∃ r, chAppendMetric env row s w = .ok r := by
  unfold chAppendMetric
  by_cases h : env.cfg.batchSize ≤ s.metricBatch.length + 1
  · obtain ⟨b, w', hf⟩ := chFlush_ok env { s with metricBatch := s.metricBatch ++ [row] } w
    exact ⟨(true, ChState.empty, w'), by simp [h, hf]⟩
  · exact ⟨(true, { s with metricBatch := s.metricBatch ++ [row] }, w), by simp [h]⟩

/-- The append/auto-flush tail of `send_log` never lets an exception escape. -/
theorem chAppendLog_ok (env : ChEnv) (row : ChLogRow) (s : ChState)
    (w : World) : ∃ r, chAppendLog env row s w = .ok r := by
  unfold chAppendLog
  by_cases h : env.cfg.batchSize ≤ s.logBatch.length + 1
  · obtain ⟨b, w', hf⟩ := chFlush_ok env { s with logBatch := s.logBatch ++ [row] } w
    exact ⟨(true, ChState.empty, w'), by simp [h, hf]⟩
  · exact ⟨(true, { s with logBatch := s.logBatch ++ [row] }, w), by simp [h]⟩

/-- The `try` body of `send_metric` never lets an exception escape. -/
theorem chSendMetricBody_ok (env : ChEnv) (a : MetricKwargs) (uuid : String)
    (nowDt : PyDatetime) (s : ChState) (w : World) :
    ∃ r, chSendMetricBody env a uuid nowDt s w = .ok r := by
  unfold chSendMetricBody
  rcases hp : a.payload with d | ms | _ <;> simp only [hp] <;>
  · split
    · exact ⟨_, rfl⟩
    · split
      · exact ⟨_, rfl⟩
      · exact chAppendMetric_ok env _ s w

/-- The `try` body of `send_log` never lets an exception escape. -/
theorem chSendLogBody_ok (env : ChEnv) (a : LogKwargs) (uuid : String)
    (nowDt obsDt : PyDatetime) (s : ChState) (w : World) :
    ∃ r, chSendLogBody env a uuid nowDt obsDt s w = .ok r := by
  unfold chSendLogBody
  rcases hp : a.payload with d | ms | _ <;> simp only [hp] <;>
    exact chAppendLog_ok env _ s w

/-- The OTLP send path never lets an exception escape: its outer
`except Exception` converts anything the retry loop re-raises into `False`. -/
theorem otlpSendWithRetry_isOk (env : OtlpEnv) (endpoint : String)
    (payload : List Nat) (w : World) :
    (otlpSendWithRetry env endpoint payload w).isOk := by
  unfold otlpSendWithRetry
  rcases h : otlpAttemptLoop env (otlpRequest env endpoint payload)
      (env.cfg.maxRetries + 1) 0 w with ⟨e, w'⟩ | r <;>
    simp [h, Except.isOk, Except.toBool]

/-- `_send_event` never lets an exception escape (disabled gate, or every
`urlopen` outcome caught by the two `except` clauses). -/
theorem clientSendEvent_isOk (c : Client) (env : ClientEnv) (eventType : String)
    (data : List (String × PyVal)) (w : World) :
    (clientSendEvent c env eventType data w).isOk := by
  unfold clientSendEvent
  by_cases h : c.enabled <;>
    rcases hn : env.net w.reqs.length with _ | _ | _ | _ | _ <;>
      simp [h, hn, Except.isOk, Except.toBool]

/-- Under an all-retryable oracle the OTLP retry loop returns `False` after
using all its fuel, issuing one request per iteration and sleeping
`base * 2 ^ attempt` after every iteration except the final one. -/
theorem otlpAttemptLoop_retryable (env : OtlpEnv) (req : HttpReq) :
    ∀ (fuel attempt : Nat) (w : World),
      (∀ i, i < fuel → Retryable (env.net (w.reqs.length + i))) →
      attempt + fuel = env.cfg.maxRetries + 1 →
      otlpAttemptLoop env req fuel attempt w =
        .ok (false,
          { reqs := w.reqs ++ List.replicate fuel req
            sleeps := w.sleeps ++ (List.range (fuel - 1)).map
              (fun i => env.cfg.retryBackoffBase * 2 ^ (attempt + i)) }) := by
  intro fuel
  induction fuel with
  | zero => intro attempt w _ _; simp [otlpAttemptLoop]
  | succ f ih =>
    intro attempt w hra hfa
    have h0 : Retryable (env.net (w.reqs.length + 0)) := hra 0 (Nat.succ_pos f)
    rw [Nat.add_zero] at h0
    have hstep : ∀ w3 : World, w3.reqs = w.reqs ++ [req] →
        otlpAttemptLoop env req f (attempt + 1) w3 =
          .ok (false,
            { reqs := w3.reqs ++ List.replicate f req
              sleeps := w3.sleeps ++ (List.range (f - 1)).map
                (fun i => env.cfg.retryBackoffBase * 2 ^ (attempt + 1 + i)) }) := by
      intro w3 h3
      refine ih (attempt + 1) w3 ?_ (by omega)
      intro i hi
      have h := hra (i + 1) (by omega)
      have harr : w3.reqs.length + i = w.reqs.length + (i + 1) := by
        rw [h3]
        simp only [List.length_append, List.length_cons, List.length_nil]
        omega
      rw [harr]
      exact h
    rcases f with _ | f'
    · -- final attempt: no sleep afterwards
      have hnolast : ¬ attempt < env.cfg.maxRetries := by omega
      unfold otlpAttemptLoop
      rcases h0 with ⟨c, hc, hco⟩ | h0 | h0
      · rcases hco with hco | hco <;> rw [hco] <;>
          · have h200 : ¬ c = 200 := by omega
            have hlt : ¬ c < 500 := by omega
            simp only [h200, if_false, hc, if_true, hlt, hnolast]
            rw [hstep (w.push req) (by simp [World.push])]
            simp [World.push]
      all_goals
        rw [h0]
        simp only [hnolast, if_false]
        rw [hstep (w.push req) (by simp [World.push])]
        simp [World.push]
    · -- a further attempt remains: sleep, then continue
      have hlast : attempt < env.cfg.maxRetries := by omega
      have hw3 : ((w.push req).sleep (env.cfg.retryBackoffBase * 2 ^ attempt)).reqs =
          w.reqs ++ [req] := by simp [World.push, World.sleep]
      have hrange : (List.range (f' + 1)).map
            (fun i => env.cfg.retryBackoffBase * 2 ^ (attempt + i)) =
          env.cfg.retryBackoffBase * 2 ^ attempt ::
            (List.range f').map
              (fun i => env.cfg.retryBackoffBase * 2 ^ (attempt + 1 + i)) := by
        rw [List.range_succ_eq_map, List.map_cons, List.map_map]
        refine congrArg₂ List.cons (by norm_num) ?_
        refine List.map_congr_left ?_
        intro i _
        simp only [Function.comp_apply]
        have harr : attempt + (i + 1) = attempt + 1 + i := by omega
        rw [Nat.succ_eq_add_one, harr]
      unfold otlpAttemptLoop
      rcases h0 with ⟨c, hc, hco⟩ | h0 | h0
      · rcases hco with hco | hco <;> rw [hco] <;>
          · have h200 : ¬ c = 200 := by omega
            have hlt : ¬ c < 500 := by omega
            simp only [h200, if_false, hc, if_true, hlt, hlast]
            rw [hstep _ hw3]
            simp [World.push, World.sleep, hrange, List.replicate_succ]
      all_goals
        rw [h0]
        simp only [hlast, if_true]
        rw [hstep _ hw3]
        simp [World.push, World.sleep, hrange, List.replicate_succ]

/-- Under an all-retryable oracle the ClickHouse retry loop returns `False`
after using all its fuel, issuing one request per iteration and sleeping
after every iteration except the final one. -/
theorem chInsertLoop_retryable (env : ChEnv) (req : HttpReq) :
    ∀ (fuel attempt : Nat) (w : World),
      (∀ i, i < fuel → Retryable (env.net (w.reqs.length + i))) →
      attempt + fuel = env.cfg.maxRetries →
      chInsertLoop env req fuel attempt w =
        (false,
          { reqs := w.reqs ++ List.replicate fuel req
            sleeps := w.sleeps ++ (List.range (fuel - 1)).map
              (fun i => env.cfg.retryBackoffBase * 2 ^ (attempt + i)) }) := by
  intro fuel
  induction fuel with
  | zero => intro attempt w _ _; simp [chInsertLoop]
  | succ f ih =>
    intro attempt w hra hfa
    have h0 : Retryable (env.net (w.reqs.length + 0)) := hra 0 (Nat.succ_pos f)
    rw [Nat.add_zero] at h0
    have hstep : ∀ w3 : World, w3.reqs = w.reqs ++ [req] →
        chInsertLoop env req f (attempt + 1) w3 =
          (false,
            { reqs := w3.reqs ++ List.replicate f req
              sleeps := w3.sleeps ++ (List.range (f - 1)).map
                (fun i => env.cfg.retryBackoffBase * 2 ^ (attempt + 1 + i)) }) := by
      intro w3 h3
      refine ih (attempt + 1) w3 ?_ (by omega)
      intro i hi
      have h := hra (i + 1) (by omega)
      have harr : w3.reqs.length + i = w.reqs.length + (i + 1) := by
        rw [h3]
        simp only [List.length_append, List.length_cons, List.length_nil]
        omega
      rw [harr]
      exact h
    rcases f with _ | f'
    · have hnolast : ¬ attempt < env.cfg.maxRetries - 1 := by omega
      unfold chInsertLoop
      rcases h0 with ⟨c, hc, hco⟩ | h0 | h0
      · rcases hco with hco | hco <;> rw [hco] <;>
          · have h200 : ¬ c = 200 := by omega
            have hlt : ¬ c < 500 := by omega
            simp only [h200, if_false, hc, if_true, hlt, hnolast]
            rw [hstep (w.push req) (by simp [World.push])]
            simp [World.push]
      all_goals
        rw [h0]
        simp only [hnolast, if_false]
        rw [hstep (w.push req) (by simp [World.push])]
        simp [World.push]
    · have hlast : attempt < env.cfg.maxRetries - 1 := by omega
      have hw3 : ((w.push req).sleep (env.cfg.retryBackoffBase * 2 ^ attempt)).reqs =
          w.reqs ++ [req] := by simp [World.push, World.sleep]
      have hrange : (List.range (f' + 1)).map
            (fun i => env.cfg.retryBackoffBase * 2 ^ (attempt + i)) =
          env.cfg.retryBackoffBase * 2 ^ attempt ::
            (List.range f').map
              (fun i => env.cfg.retryBackoffBase * 2 ^ (attempt + 1 + i)) := by
        rw [List.range_succ_eq_map, List.map_cons, List.map_map]
        refine congrArg₂ List.cons (by norm_num) ?_
        refine List.map_congr_left ?_
        intro i _
        simp only [Function.comp_apply]
        have harr : attempt + (i + 1) = attempt + 1 + i := by omega
        rw [Nat.succ_eq_add_one, harr]
      unfold chInsertLoop
      rcases h0 with ⟨c, hc, hco⟩ | h0 | h0
      · rcases hco with hco | hco <;> rw [hco] <;>
          · have h200 : ¬ c = 200 := by omega
            have hlt : ¬ c < 500 := by omega
            simp only [h200, if_false, hc, if_true, hlt, hlast]
            rw [hstep _ hw3]
            simp [World.push, World.sleep, hrange, List.replicate_succ]
      all_goals
        rw [h0]
        simp only [hlast, if_true]
        rw [hstep _ hw3]
        simp [World.push, World.sleep, hrange, List.replicate_succ]

/-- A 4xx outcome on the current attempt makes the OTLP loop return `False`
with exactly this one request issued and no sleep. -/
theorem otlpAttemptLoop_4xx (env : OtlpEnv) (req : HttpReq) (f attempt : Nat)
    (w : World) (h4 : Is4xx (env.net w.reqs.length)) :
    otlpAttemptLoop env req (f + 1) attempt w = .ok (false, w.push req) := by
  obtain ⟨c, hc1, hc2, hco⟩ := h4
  unfold otlpAttemptLoop
  rcases hco with hco | hco <;> rw [hco]
  · have h200 : ¬ c = 200 := by omega
    have h5 : ¬ 500 ≤ c := by omega
    simp [h200, h5]
  · have hlt : c < 500 := hc2
    simp [hlt]

/-- A 4xx outcome on the current attempt makes the ClickHouse loop return
`False` with exactly this one request issued and no sleep. -/
theorem chInsertLoop_4xx (env : ChEnv) (req : HttpReq) (f attempt : Nat)
    (w : World) (h4 : Is4xx (env.net w.reqs.length)) :
    chInsertLoop env req (f + 1) attempt w = (false, w.push req) := by
  obtain ⟨c, hc1, hc2, hco⟩ := h4
  unfold chInsertLoop
  rcases hco with hco | hco <;> rw [hco]
  · have h200 : ¬ c = 200 := by omega
    have h5 : ¬ 500 ≤ c := by omega
    simp [h200, h5]
  · have hlt : c < 500 := hc2
    simp [hlt]

/-- Every request the OTLP retry loop issues is the one request it was built
with: the final request log is the initial one plus some number of copies of
`req`, whether the loop returns or re-raises. -/
theorem otlpAttemptLoop_reqs_shape (env : OtlpEnv) (req : HttpReq) :
    ∀ (fuel attempt : Nat) (w : World),
      ∃ k, (exWorld (otlpAttemptLoop env req fuel attempt w)).reqs =
        w.reqs ++ List.replicate k req := by
  intro fuel
  induction fuel with
  | zero => intro a w; exact ⟨0, by simp [otlpAttemptLoop, exWorld]⟩
  | succ f ih =>
    intro a w
    have hnext : ∀ w2 : World, w2.reqs = w.reqs ++ [req] →
        ∃ k, (exWorld (otlpAttemptLoop env req f (a + 1)
          (if a < env.cfg.maxRetries then
            w2.sleep (env.cfg.retryBackoffBase * 2 ^ a) else w2))).reqs =
          w.reqs ++ List.replicate k req := by
      intro w2 h2
      have h3 : (if a < env.cfg.maxRetries then
          w2.sleep (env.cfg.retryBackoffBase * 2 ^ a) else w2).reqs =
          w.reqs ++ [req] := by
        by_cases hs : a < env.cfg.maxRetries <;> simp [hs, World.sleep, h2]
      obtain ⟨k, hk⟩ := ih (a + 1) (if a < env.cfg.maxRetries then
        w2.sleep (env.cfg.retryBackoffBase * 2 ^ a) else w2)
      refine ⟨k + 1, ?_⟩
      rw [hk, h3]
      simp [List.replicate_succ, List.append_assoc]
    unfold otlpAttemptLoop
    rcases hn : env.net w.reqs.length with code | code | _ | _ | _
    · by_cases h200 : code = 200
      · exact ⟨1, by simp [hn, h200, exWorld, World.push]⟩
      · by_cases h5 : 500 ≤ code
        · simpa [hn, h200, h5] using hnext (w.push req) (by simp [World.push])
        · exact ⟨1, by simp [hn, h200, h5, exWorld, World.push]⟩
    · by_cases hc : code < 500
      · exact ⟨1, by simp [hn, hc, exWorld, World.push]⟩
      · simpa [hn, hc] using hnext (w.push req) (by simp [World.push])
    · simpa [hn] using hnext (w.push req) (by simp [World.push])
    · simpa [hn] using hnext (w.push req) (by simp [World.push])
    · exact ⟨1, by simp [hn, exWorld, World.push]⟩

/-- Every request issued during `_send_with_retry` carries the
compressed-or-not body and the gzip-header decision of `otlpRequest`. -/
theorem otlpSendWithRetry_reqs (env : OtlpEnv) (endpoint : String)
    (payload : List Nat) (w : World) (b : Bool) (w' : World)
    (h : otlpSendWithRetry env endpoint payload w = .ok (b, w')) :
    ∃ k, w'.reqs = w.reqs ++ List.replicate k (otlpRequest env endpoint payload) := by
  obtain ⟨k, hk⟩ := otlpAttemptLoop_reqs_shape env (otlpRequest env endpoint payload)
    (env.cfg.maxRetries + 1) 0 w
  refine ⟨k, ?_⟩
  unfold otlpSendWithRetry at h
  rcases hl : otlpAttemptLoop env (otlpRequest env endpoint payload)
      (env.cfg.maxRetries + 1) 0 w with ⟨e, we⟩ | ⟨bb, wo⟩ <;>
    rw [hl] at h hk <;> simp [exWorld] at h hk <;> rw [← h.2] <;> exact hk

/-- The retry loop only ever appends to the request log. -/
theorem chInsertLoop_reqs_mono (env : ChEnv) (req : HttpReq) :
    ∀ (fuel attempt : Nat) (w : World),
      w.reqs.length ≤ (chInsertLoop env req fuel attempt w).2.reqs.length := by
  intro fuel
  induction fuel with
  | zero => intro attempt w; simp [chInsertLoop]
  | succ f ih =>
    intro a w
    have hnext : ∀ w2 : World, w.reqs.length ≤ w2.reqs.length →
        w.reqs.length ≤ (chInsertLoop env req f (a + 1)
          (if a < env.cfg.maxRetries - 1 then
            w2.sleep (env.cfg.retryBackoffBase * 2 ^ a) else w2)).2.reqs.length := by
      intro w2 h2
      refine le_trans ?_ (ih (a + 1) _)
      by_cases hs : a < env.cfg.maxRetries - 1 <;> simp [hs, World.sleep, h2]
    have hpush : w.reqs.length ≤ (w.push req).reqs.length := by simp [World.push]
    unfold chInsertLoop
    rcases env.net w.reqs.length with code | code | _ | _ | _
    · by_cases h200 : code = 200
      · simp [h200, World.push]
      · by_cases h5 : 500 ≤ code
        · simpa [h200, h5] using hnext (w.push req) hpush
        · simp [h200, h5, World.push]
    · by_cases hc : code < 500
      · simp [hc, World.push]
      · simpa [hc] using hnext (w.push req) hpush
    · simpa using hnext (w.push req) hpush
    · simpa using hnext (w.push req) hpush
    · simpa using hnext (w.push req) hpush

/-- With at least one attempt of fuel, the retry loop issues at least one
request. -/
theorem chInsertLoop_reqs_one (env : ChEnv) (req : HttpReq) (fuel attempt : Nat)
    (w : World) (hf : 1 ≤ fuel) :
    w.reqs.length + 1 ≤ (chInsertLoop env req fuel attempt w).2.reqs.length := by
  match fuel, hf with
  | f + 1, _ =>
    have hpush : w.reqs.length + 1 = (w.push req).reqs.length := by simp [World.push]
    have hnext : ∀ w2 : World, w.reqs.length + 1 ≤ w2.reqs.length →
        w.reqs.length + 1 ≤ (chInsertLoop env req f (attempt + 1)
          (if attempt < env.cfg.maxRetries - 1 then
            w2.sleep (env.cfg.retryBackoffBase * 2 ^ attempt) else w2)).2.reqs.length := by
      intro w2 h2
      have hmono := chInsertLoop_reqs_mono env req f (attempt + 1)
        (if attempt < env.cfg.maxRetries - 1 then
          w2.sleep (env.cfg.retryBackoffBase * 2 ^ attempt) else w2)
      refine le_trans ?_ hmono
      by_cases hs : attempt < env.cfg.maxRetries - 1 <;> simp [hs, World.sleep, h2]
    unfold chInsertLoop
    rcases env.net w.reqs.length with code | code | _ | _ | _
    · by_cases h200 : code = 200
      · simp [h200, World.push]
      · by_cases h5 : 500 ≤ code
        · simpa [h200, h5] using hnext (w.push req) (le_of_eq hpush)
        · simp [h200, h5, World.push]
    · by_cases hc : code < 500
      · simp [hc, World.push]
      · simpa [hc] using hnext (w.push req) (le_of_eq hpush)
    · simpa using hnext (w.push req) (le_of_eq hpush)
    · simpa using hnext (w.push req) (le_of_eq hpush)
    · simpa using hnext (w.push req) (le_of_eq hpush)

/-- A non-empty `_insert_batch` with at least one retry of budget issues at
least one request. -/
theorem chInsertBatch_len (env : ChEnv) (table : String) (rows : List (List Nat))
    (w : World) (hmr : 1 ≤ env.cfg.maxRetries) (hne : rows ≠ []) :
    ∃ b w', chInsertBatch env table rows w = .ok (b, w') ∧
      w.reqs.length + 1 ≤ w'.reqs.length := by
  have hie : ¬ rows.isEmpty := by simp [hne]
  refine ⟨(chInsertLoop env (chInsertRequest env table rows) env.cfg.maxRetries 0 w).1,
    (chInsertLoop env (chInsertRequest env table rows) env.cfg.maxRetries 0 w).2,
    (by simp [chInsertBatch, hie]), ?_⟩
  exact chInsertLoop_reqs_one env _ env.cfg.maxRetries 0 w hmr

/-- `_insert_batch` never shrinks the request log. -/
theorem chInsertBatch_mono (env : ChEnv) (table : String) (rows : List (List Nat))
    (w : World) (b : Bool) (w' : World)
    (h : chInsertBatch env table rows w = .ok (b, w')) :
    w.reqs.length ≤ w'.reqs.length := by
  unfold chInsertBatch at h
  by_cases hie : rows.isEmpty
  · simp [hie] at h
    rw [← h.2]
  · simp [hie] at h
    have hmono := chInsertLoop_reqs_mono env (chInsertRequest env table rows)
      env.cfg.maxRetries 0 w
    rw [h] at hmono
    simpa using hmono

/-- The traces section of `flush`, with request-log accounting. -/
theorem chFlushTraces_len (env : ChEnv) (t : List ChTraceRow) (m : List ChMetricRow)
    (l : List ChLogRow) (w : World) (hmr : 1 ≤ env.cfg.maxRetries) :
    ∃ b w', chFlushTraces env ⟨t, m, l⟩ w = .ok (b, ⟨[], m, l⟩, w') ∧
      w.reqs.length ≤ w'.reqs.length ∧
      (t ≠ [] → w.reqs.length + 1 ≤ w'.reqs.length) := by
  by_cases h : (t : List ChTraceRow).isEmpty
  · have hs : t = [] := by simpa using h
    subst hs
    exact ⟨true, w, by simp [chFlushTraces], le_rfl, (by simp)⟩
  · have ht : t ≠ [] := by simpa using h
    have hne : t.map env.serT ≠ [] := by simpa using ht
    obtain ⟨b, w', hb, hlen⟩ := chInsertBatch_len env env.cfg.tracesTable
      (t.map env.serT) w hmr hne
    exact ⟨b, w', by simp [chFlushTraces, h, hb], (by omega), fun _ => hlen⟩

/-- The metrics section of `flush`, with request-log accounting. -/
theorem chFlushMetrics_len (env : ChEnv) (t : List ChTraceRow) (m : List ChMetricRow)
    (l : List ChLogRow) (w : World) (hmr : 1 ≤ env.cfg.maxRetries) :
    ∃ b w', chFlushMetrics env ⟨t, m, l⟩ w = .ok (b, ⟨t, [], l⟩, w') ∧
      w.reqs.length ≤ w'.reqs.length ∧
      (m ≠ [] → w.reqs.length + 1 ≤ w'.reqs.length) := by
  by_cases h : (m : List ChMetricRow).isEmpty
  · have hs : m = [] := by simpa using h
    subst hs
    exact ⟨true, w, by simp [chFlushMetrics], le_rfl, (by simp)⟩
  · have ht : m ≠ [] := by simpa using h
    have hne : m.map env.serM ≠ [] := by simpa using ht
    obtain ⟨b, w', hb, hlen⟩ := chInsertBatch_len env env.cfg.metricsTable
      (m.map env.serM) w hmr hne
    exact ⟨b, w', by simp [chFlushMetrics, h, hb], (by omega), fun _ => hlen⟩

/-- The logs section of `flush`, with request-log accounting. -/
theorem chFlushLogs_len (env : ChEnv) (t : List ChTraceRow) (m : List ChMetricRow)
    (l : List ChLogRow) (w : World) (hmr : 1 ≤ env.cfg.maxRetries) :
    ∃ b w', chFlushLogs env ⟨t, m, l⟩ w = .ok (b, ⟨t, m, []⟩, w') ∧
      w.reqs.length ≤ w'.reqs.length ∧
      (l ≠ [] → w.reqs.length + 1 ≤ w'.reqs.length) := by
  by_cases h : (l : List ChLogRow).isEmpty
  · have hs : l = [] := by simpa using h
    subst hs
    exact ⟨true, w, by simp [chFlushLogs], le_rfl, (by simp)⟩
  · have ht : l ≠ [] := by simpa using h
    have hne : l.map env.serL ≠ [] := by simpa using ht
    obtain ⟨b, w', hb, hlen⟩ := chInsertBatch_len env env.cfg.logsTable
      (l.map env.serL) w hmr hne
    exact ⟨b, w', by simp [chFlushLogs, h, hb], (by omega), fun _ => hlen⟩

/-- `flush` clears every batch, never shrinks the request log, and issues at
least one request whenever some batch was non-empty (given at least one retry
of budget). -/
theorem chFlush_len (env : ChEnv) (t : List ChTraceRow) (m : List ChMetricRow)
    (l : List ChLogRow) (w : World) (hmr : 1 ≤ env.cfg.maxRetries) :
    ∃ b w', chFlush env ⟨t, m, l⟩ w = .ok (b, ChState.empty, w') ∧
      w.reqs.length ≤ w'.reqs.length ∧
      (¬ (t = [] ∧ m = [] ∧ l = []) → w.reqs.length + 1 ≤ w'.reqs.length) := by
  obtain ⟨b1, w1, h1, hm1, hp1⟩ := chFlushTraces_len env t m l w hmr
  obtain ⟨b2, w2, h2, hm2, hp2⟩ := chFlushMetrics_len env [] m l w1 hmr
  obtain ⟨b3, w3, h3, hm3, hp3⟩ := chFlushLogs_len env [] [] l w2 hmr
  refine ⟨b1 && b2 && b3, w3, ?_, by omega, ?_⟩
  · unfold chFlush
    simp only [h1, h2, h3]
    rfl
  · intro hne
    by_cases hT : t = []
    · by_cases hM : m = []
      · have hL : l ≠ [] := by
          intro hL
          exact hne ⟨hT, hM, hL⟩
        have := hp3 hL
        omega
      · have := hp2 hM
        omega
    · have := hp1 hT
      omega

/-- A `send_trace` call on a trace batch one short of `batch_size` triggers a
flush: the batches empty and at least one insert request goes out. -/
theorem chSendTrace_flushes (env : ChEnv) (span : OtlpSpan) (nowNs : Nat)
    (t : List ChTraceRow) (w : World) (hmr : 1 ≤ env.cfg.maxRetries)
    (hlen : env.cfg.batchSize ≤ t.length + 1) :
    ∃ b w', chSendTrace env span nowNs ⟨t, [], []⟩ w = (b, ChState.empty, w') ∧
      w.reqs.length + 1 ≤ w'.reqs.length := by
  obtain ⟨bf, w', hf, hmono, hp⟩ := chFlush_len env
    (t ++ [transformOtlpToClickhouse span nowNs]) [] [] w hmr
  have ht : ¬ (t ++ [transformOtlpToClickhouse span nowNs] = [] ∧
      ([] : List ChMetricRow) = [] ∧ ([] : List ChLogRow) = []) := by simp
  have hcond : env.cfg.batchSize ≤ (t ++ [transformOtlpToClickhouse span nowNs]).length := by
    simp only [List.length_append, List.length_cons, List.length_nil]
    omega
  refine ⟨true, w', ?_, hp ht⟩
  unfold chSendTrace chAddToBatch
  simp [hcond, hf, hlen]

/-- Below `batch_size`, a `send_trace` call just appends its row. -/
theorem chSendTrace_small (env : ChEnv) (span : OtlpSpan) (nowNs : Nat)
    (t : List ChTraceRow) (w : World)
    (hlen : ¬ env.cfg.batchSize ≤ t.length + 1) :
    chSendTrace env span nowNs ⟨t, [], []⟩ w =
      (true, ⟨t ++ [transformOtlpToClickhouse span nowNs], [], []⟩, w) := by
  have hcond : ¬ env.cfg.batchSize ≤ (t ++ [transformOtlpToClickhouse span nowNs]).length := by
    simp only [List.length_append, List.length_cons, List.length_nil]
    omega
  unfold chSendTrace chAddToBatch
  simp [hcond, hlen]

/-- Below `batch_size`, successive `send_trace` calls only accumulate rows
and issue no request. -/
theorem chSendTraceIter_small (env : ChEnv) (span : OtlpSpan) (nowNs : Nat) :
    ∀ k, k < env.cfg.batchSize →
      chSendTraceIter env span nowNs k =
        (⟨List.replicate k (transformOtlpToClickhouse span nowNs), [], []⟩, World.empty) := by
  intro k
  induction k with
  | zero => intro _; simp [chSendTraceIter, ChState.empty]
  | succ n ih =>
    intro hk
    have hn := ih (by omega)
    unfold chSendTraceIter
    rw [hn]
    simp only
    rw [chSendTrace_small env span nowNs _ World.empty
      (by simp only [List.length_replicate]; omega)]
    simp [List.replicate_succ']

/-- The `batch_size`-th `send_trace` call flushes. -/
theorem chSendTraceIter_flush (env : ChEnv) (span : OtlpSpan) (nowNs : Nat)
    (hB : 1 ≤ env.cfg.batchSize) (hmr : 1 ≤ env.cfg.maxRetries) :
    (chSendTraceIter env span nowNs env.cfg.batchSize).1 = ChState.empty ∧
    1 ≤ (chSendTraceIter env span nowNs env.cfg.batchSize).2.reqs.length := by
  obtain ⟨B', hB'⟩ : ∃ B', env.cfg.batchSize = B' + 1 :=
    ⟨env.cfg.batchSize - 1, by omega⟩
  have hsmall := chSendTraceIter_small env span nowNs B' (by omega)
  obtain ⟨b, w', hstep, hlen⟩ := chSendTrace_flushes env span nowNs
    (List.replicate B' (transformOtlpToClickhouse span nowNs)) World.empty hmr
    (by simp only [List.length_replicate]; omega)
  rw [hB']
  unfold chSendTraceIter
  rw [hsmall]
  simp only
  rw [hstep]
  exact ⟨rfl, by simpa [World.empty] using hlen⟩

/-- Below `batch_size`, the metric append tail just appends. -/
theorem chAppendMetric_small (env : ChEnv) (row : ChMetricRow) (mb : List ChMetricRow)
    (w : World) (hlen : ¬ env.cfg.batchSize ≤ mb.length + 1) :
    chAppendMetric env row ⟨[], mb, []⟩ w = .ok (true, ⟨[], mb ++ [row], []⟩, w) := by
  have hcond : ¬ env.cfg.batchSize ≤ (mb ++ [row]).length := by
    simp only [List.length_append, List.length_cons, List.length_nil]
    omega
  unfold chAppendMetric
  simp [hcond, hlen]

/-- At `batch_size`, the metric append tail flushes. -/
theorem chAppendMetric_flushes (env : ChEnv) (row : ChMetricRow)
    (mb : List ChMetricRow) (w : World) (hmr : 1 ≤ env.cfg.maxRetries)
    (hlen : env.cfg.batchSize ≤ mb.length + 1) :
    ∃ w', chAppendMetric env row ⟨[], mb, []⟩ w = .ok (true, ChState.empty, w') ∧
      w.reqs.length + 1 ≤ w'.reqs.length := by
  obtain ⟨bf, w', hf, hmono, hp⟩ := chFlush_len env [] (mb ++ [row]) [] w hmr
  have ht : ¬ (([] : List ChTraceRow) = [] ∧ mb ++ [row] = [] ∧
      ([] : List ChLogRow) = []) := by simp
  refine ⟨w', ?_, hp ht⟩
  unfold chAppendMetric
  simp [hf, hlen]

/-- Below `batch_size`, the log append tail just appends. -/
theorem chAppendLog_small (env : ChEnv) (row : ChLogRow) (lb : List ChLogRow)
    (w : World) (hlen : ¬ env.cfg.batchSize ≤ lb.length + 1) :
    chAppendLog env row ⟨[], [], lb⟩ w = .ok (true, ⟨[], [], lb ++ [row]⟩, w) := by
  have hcond : ¬ env.cfg.batchSize ≤ (lb ++ [row]).length := by
    simp only [List.length_append, List.length_cons, List.length_nil]
    omega
  unfold chAppendLog
  simp [hcond, hlen]

/-- At `batch_size`, the log append tail flushes. -/
theorem chAppendLog_flushes (env : ChEnv) (row : ChLogRow) (lb : List ChLogRow)
    (w : World) (hmr : 1 ≤ env.cfg.maxRetries)
    (hlen : env.cfg.batchSize ≤ lb.length + 1) :
    ∃ w', chAppendLog env row ⟨[], [], lb⟩ w = .ok (true, ChState.empty, w') ∧
      w.reqs.length + 1 ≤ w'.reqs.length := by
  obtain ⟨bf, w', hf, hmono, hp⟩ := chFlush_len env [] [] (lb ++ [row]) w hmr
  have ht : ¬ (([] : List ChTraceRow) = [] ∧ ([] : List ChMetricRow) = [] ∧
      lb ++ [row] = []) := by simp
  refine ⟨w', ?_, hp ht⟩
  unfold chAppendLog
  simp [hf, hlen]

/-- A `send_metric` call under the legacy string convention with a metric name
and a value reduces to its append tail. -/
theorem chSendMetricBody_str (env : ChEnv) (a : MetricKwargs) (uuid : String)
    (nowDt : PyDatetime) (s : ChState) (w : World) (mname : String)
    (hp : a.payload = .str mname) (hm : ¬ mname = "") (hv : a.value.isSome) :
    ∃ row, chSendMetricBody env a uuid nowDt s w = chAppendMetric env row s w := by
  have hnone : a.value.isNone = false := by
    rcases hv' : a.value with _ | v
    · rw [hv'] at hv; simp at hv
    · simp [hv']
  unfold chSendMetricBody
  simp only [hp, hm, hnone, MetricPayload.isDict, if_false, Bool.false_eq_true,
    false_and, if_neg]
  exact ⟨_, rfl⟩

/-- Every `send_log` call reduces to its append tail (logs have no
validation). -/
theorem chSendLogBody_append (env : ChEnv) (a : LogKwargs) (uuid : String)
    (nowDt obsDt : PyDatetime) (s : ChState) (w : World) :
    ∃ row, chSendLogBody env a uuid nowDt obsDt s w = chAppendLog env row s w := by
  unfold chSendLogBody
  rcases hp : a.payload with d | ms | _ <;> simp only [hp] <;> exact ⟨_, rfl⟩

/-- Below `batch_size`, successive valid `send_metric` calls only accumulate
rows and issue no request. -/
theorem chSendMetricIter_small (env : ChEnv) (a : MetricKwargs) (uuid : String)
    (nowDt : PyDatetime) (mname : String) (hp : a.payload = .str mname)
    (hm : ¬ mname = "") (hv : a.value.isSome) :
    ∀ k, k < env.cfg.batchSize →
      ∃ mb : List ChMetricRow,
        chSendMetricIter env a uuid nowDt k = (⟨[], mb, []⟩, World.empty) ∧
        mb.length = k := by
  intro k
  induction k with
  | zero => exact fun _ => ⟨[], by simp [chSendMetricIter, ChState.empty], rfl⟩
  | succ n ih =>
    intro hk
    obtain ⟨mb, hiter, hlen⟩ := ih (by omega)
    obtain ⟨row, hrow⟩ := chSendMetricBody_str env a uuid nowDt ⟨[], mb, []⟩
      World.empty mname hp hm hv
    refine ⟨mb ++ [row], ?_, by simp [hlen]⟩
    unfold chSendMetricIter
    rw [hiter]
    simp only
    unfold chSendMetric
    rw [hrow, chAppendMetric_small env row mb World.empty (by omega)]

/-- The `batch_size`-th valid `send_metric` call flushes. -/
theorem chSendMetricIter_flush (env : ChEnv) (a : MetricKwargs) (uuid : String)
    (nowDt : PyDatetime) (mname : String) (hp : a.payload = .str mname)
    (hm : ¬ mname = "") (hv : a.value.isSome)
    (hB : 1 ≤ env.cfg.batchSize) (hmr : 1 ≤ env.cfg.maxRetries) :
    (chSendMetricIter env a uuid nowDt env.cfg.batchSize).1 = ChState.empty ∧
    1 ≤ (chSendMetricIter env a uuid nowDt env.cfg.batchSize).2.reqs.length := by
  obtain ⟨B', hB'⟩ : ∃ B', env.cfg.batchSize = B' + 1 :=
    ⟨env.cfg.batchSize - 1, by omega⟩
  obtain ⟨mb, hiter, hlen⟩ := chSendMetricIter_small env a uuid nowDt mname hp hm hv
    B' (by omega)
  obtain ⟨row, hrow⟩ := chSendMetricBody_str env a uuid nowDt ⟨[], mb, []⟩
    World.empty mname hp hm hv
  obtain ⟨w', happ, hreq⟩ := chAppendMetric_flushes env row mb World.empty hmr
    (by omega)
  rw [hB']
  unfold chSendMetricIter
  rw [hiter]
  simp only
  unfold chSendMetric
  rw [hrow, happ]
  exact ⟨rfl, by simpa [World.empty] using hreq⟩

/-- Below `batch_size`, successive `send_log` calls only accumulate rows and
issue no request. -/
theorem chSendLogIter_small (env : ChEnv) (a : LogKwargs) (uuid : String)
    (nowDt obsDt : PyDatetime) :
    ∀ k, k < env.cfg.batchSize →
      ∃ lb : List ChLogRow,
        chSendLogIter env a uuid nowDt obsDt k = (⟨[], [], lb⟩, World.empty) ∧
        lb.length = k := by
  intro k
  induction k with
  | zero => exact fun _ => ⟨[], by simp [chSendLogIter, ChState.empty], rfl⟩
  | succ n ih =>
    intro hk
    obtain ⟨lb, hiter, hlen⟩ := ih (by omega)
    obtain ⟨row, hrow⟩ := chSendLogBody_append env a uuid nowDt obsDt ⟨[], [], lb⟩
      World.empty
    refine ⟨lb ++ [row], ?_, by simp [hlen]⟩
    unfold chSendLogIter
    rw [hiter]
    simp only
    unfold chSendLog
    rw [hrow, chAppendLog_small env row lb World.empty (by omega)]

/-- The `batch_size`-th `send_log` call flushes. -/
theorem chSendLogIter_flush (env : ChEnv) (a : LogKwargs) (uuid : String)
    (nowDt obsDt : PyDatetime)
    (hB : 1 ≤ env.cfg.batchSize) (hmr : 1 ≤ env.cfg.maxRetries) :
    (chSendLogIter env a uuid nowDt obsDt env.cfg.batchSize).1 = ChState.empty ∧
    1 ≤ (chSendLogIter env a uuid nowDt obsDt env.cfg.batchSize).2.reqs.length := by
  obtain ⟨B', hB'⟩ : ∃ B', env.cfg.batchSize = B' + 1 :=
    ⟨env.cfg.batchSize - 1, by omega⟩
  obtain ⟨lb, hiter, hlen⟩ := chSendLogIter_small env a uuid nowDt obsDt B' (by omega)
  obtain ⟨row, hrow⟩ := chSendLogBody_append env a uuid nowDt obsDt ⟨[], [], lb⟩
    World.empty
  obtain ⟨w', happ, hreq⟩ := chAppendLog_flushes env row lb World.empty hmr (by omega)
  rw [hB']
  unfold chSendLogIter
  rw [hiter]
  simp only
  unfold chSendLog
  rw [hrow, happ]
  exact ⟨rfl, by simpa [World.empty] using hreq⟩

/-- `log2fuel` is bounded by any exponent bound on its argument. -/
theorem log2fuel_le : ∀ (f m n : Nat), n < 2 ^ (m + 1) → log2fuel f n ≤ m := by
  intro f
  induction f with
  | zero => intro m n _; simp [log2fuel]
  | succ f ih =>
    intro m n hn
    unfold log2fuel
    by_cases h1 : n ≤ 1
    · simp [h1]
    · have h2 : 2 ≤ n := by omega
      have hm1 : 1 ≤ m := by
        by_contra hm
        have : m = 0 := by omega
        subst this
        simp at hn
        omega
      obtain ⟨m', hm'⟩ : ∃ m', m = m' + 1 := ⟨m - 1, by omega⟩
      have hdiv : n / 2 < 2 ^ (m' + 1) := by
        have : n < 2 ^ (m' + 1) * 2 := by
          rw [← pow_succ]
          rw [hm'] at hn
          exact hn
        omega
      have := ih m' (n / 2) hdiv
      simp [h1]
      omega

theorem qfloor_intCast (n : ℤ) : qfloor (n : ℚ) = n := by
  simp [qfloor]

theorem qfloor_natCast (n : ℕ) : qfloor (n : ℚ) = n := by
  simpa using qfloor_intCast (n : ℤ)

theorem roundHE_intCast (n : ℤ) : roundHE (n : ℚ) = n := by
  unfold roundHE
  rw [qfloor_intCast]
  norm_num

theorem roundHE_natCast (n : ℕ) : roundHE (n : ℚ) = n := by
  simpa using roundHE_intCast (n : ℤ)

/-- A natural number that is a multiple of `2^k` and below `2^(53+k)` is
exactly representable: `rdPos` fixes it. -/
theorem rdPos_nat_exact (n k : ℕ) (hpos : 0 < n) (hdvd : 2 ^ k ∣ n)
    (hlt : n < 2 ^ (53 + k)) : rdPos (n : ℚ) = n := by
  have hq0 : (n : ℚ) ≠ 0 := by positivity
  unfold rdPos
  rw [if_neg hq0, qfloor_natCast]
  simp only [Int.toNat_natCast]
  set e := log2fuel 64 n with he
  have heb : e ≤ 52 + k := log2fuel_le 64 (52 + k) n (by
    have : 53 + k = 52 + k + 1 := by omega
    rw [this] at hlt
    exact hlt)
  by_cases h52 : e ≤ 52
  · rw [if_pos h52]
    have hcast : (n : ℚ) * 2 ^ (52 - e) = ((n * 2 ^ (52 - e) : ℕ) : ℚ) := by
      push_cast
      ring
    rw [hcast, roundHE_natCast]
    push_cast
    have h2 : ((2 : ℚ) ^ (52 - e)) ≠ 0 := by positivity
    field_simp
  · rw [if_neg h52]
    have hd : e - 52 ≤ k := by omega
    have hdvd' : 2 ^ (e - 52) ∣ n := dvd_trans (pow_dvd_pow 2 hd) hdvd
    have hcast : (n : ℚ) / 2 ^ (e - 52) = ((n / 2 ^ (e - 52) : ℕ) : ℚ) := by
      rw [Nat.cast_div hdvd' (by positivity)]
      push_cast
      ring
    obtain ⟨m, hm⟩ := hdvd'
    have hmn : n / 2 ^ (e - 52) = m := by
      rw [hm]
      exact Nat.mul_div_cancel_left m (by positivity)
    rw [hcast, hmn, roundHE_natCast]
    have h2 : ((2 : ℚ)) ^ (e - 52) ≠ 0 := by positivity
    rw [hm]
    push_cast
    ring

/-- `rd` on a nonnegative rational is `rdPos`. -/
theorem rd_of_nonneg (q : ℚ) (hq : 0 ≤ q) : rd q = rdPos q := by
  unfold rd
  rw [if_neg (not_lt.mpr hq)]

/-- `rd` fixes exactly representable natural numbers. -/
theorem rd_nat_exact (n k : ℕ) (hpos : 0 < n) (hdvd : 2 ^ k ∣ n)
    (hlt : n < 2 ^ (53 + k)) : rd (n : ℚ) = n := by
  rw [rd_of_nonneg _ (by positivity)]
  exact rdPos_nat_exact n k hpos hdvd hlt

theorem rd_zero : rd 0 = 0 := by
  simp [rd, rdPos]

/-- `fromtimestampSec` of an exact whole-second double. -/
theorem fromtimestampSec_natCast (s : ℕ) : fromtimestampSec (s : ℚ) = s := by
  unfold fromtimestampSec
  rw [qfloor_natCast]
  simp only [Int.cast_natCast, sub_self, zero_mul, rd_zero]
  rw [show roundHE 0 = 0 by simpa using roundHE_natCast 0]
  norm_num

/-- Half-to-even rounding is within half a unit and never below the floor. -/
theorem roundHE_bounds (q : ℚ) :
    (⌊q⌋ : ℚ) ≤ roundHE q ∧ (roundHE q : ℚ) ≤ q + 1/2 ∧ q - 1/2 ≤ (roundHE q : ℚ) := by
  have hfl : ((⌊q⌋ : ℤ) : ℚ) ≤ q := Int.floor_le q
  have hfu : q < ((⌊q⌋ : ℤ) : ℚ) + 1 := Int.lt_floor_add_one q
  unfold roundHE
  rw [qfloor_eq]
  by_cases h1 : q - (⌊q⌋ : ℚ) < 1/2
  · rw [if_pos h1]
    refine ⟨le_refl _, by push_cast; linarith, by push_cast; linarith⟩
  · rw [if_neg h1]
    by_cases h2 : 1/2 < q - (⌊q⌋ : ℚ)
    · rw [if_pos h2]
      push_cast
      refine ⟨by linarith, by linarith, by linarith⟩
    · rw [if_neg h2]
      by_cases h3 : ⌊q⌋ % 2 = 0 <;> [rw [if_pos h3]; rw [if_neg h3]] <;>
        push_cast <;> refine ⟨by linarith, by linarith, by linarith⟩

/-- Error bounds for `rdPos` on a nonnegative rational whose floor is below
`2^(m+1)` with `m ≤ 52`: the result is at least the floor and within
`2^m / 2^53` of the argument. -/
theorem rdPos_bounds (q : ℚ) (m : ℕ) (hq : 0 ≤ q) (hm : m ≤ 52)
    (hfl : (qfloor q).toNat < 2 ^ (m + 1)) :
    (⌊q⌋ : ℚ) ≤ rdPos q ∧ rdPos q ≤ q + (2:ℚ) ^ m / 2 ^ 53 ∧
      q - (2:ℚ) ^ m / 2 ^ 53 ≤ rdPos q := by
  have hb : (0:ℚ) < (2:ℚ) ^ m / 2 ^ 53 := by positivity
  by_cases h0 : q = 0
  · subst h0
    simp only [rdPos, if_pos rfl]
    norm_num
    positivity
  · unfold rdPos
    rw [if_neg h0]
    set e := log2fuel 64 (qfloor q).toNat with he
    have heb : e ≤ m := log2fuel_le 64 m (qfloor q).toNat hfl
    rw [if_pos (by omega : e ≤ 52)]
    set c : ℚ := 2 ^ (52 - e) with hc
    have hc0 : (0:ℚ) < c := by positivity
    obtain ⟨hr1, hr2, hr3⟩ := roundHE_bounds (q * c)
    have hfloor_mul : ((⌊q⌋ : ℚ) * c : ℚ) ≤ (⌊(q * c)⌋ : ℚ) := by
      have hle : ((⌊q⌋ * (2:ℤ) ^ (52 - e) : ℤ) : ℚ) ≤ q * c := by
        push_cast
        exact mul_le_mul_of_nonneg_right (Int.floor_le q) (by positivity)
      have hzz : ((⌊q⌋ * (2:ℤ) ^ (52 - e) : ℤ) : ℚ) ≤ ((⌊q * c⌋ : ℤ) : ℚ) :=
        Int.cast_le.mpr (Int.le_floor.mpr hle)
      push_cast at hzz
      rw [hc]
      exact hzz
    have herr : 1 / (2 * c) ≤ (2:ℚ) ^ m / 2 ^ 53 := by
      rw [div_le_div_iff (by positivity) (by positivity)]
      have h2c : 2 * c = 2 ^ (53 - e) := by
        rw [hc, ← pow_succ']
        congr 1
        omega
      rw [h2c, ← pow_add]
      have hexp : (53:ℕ) ≤ m + (53 - e) := by omega
      calc (1:ℚ) * 2 ^ 53 = 2 ^ 53 := by ring
        _ ≤ 2 ^ (m + (53 - e)) := by
            exact pow_le_pow_right (by norm_num) hexp
    constructor
    · calc (⌊q⌋ : ℚ) = (⌊q⌋ : ℚ) * c / c := by field_simp
        _ ≤ (⌊(q * c)⌋ : ℚ) / c := by
            exact (div_le_div_right hc0).mpr hfloor_mul
        _ ≤ (roundHE (q * c) : ℚ) / c := by
            exact (div_le_div_right hc0).mpr hr1
    · constructor
      · have : (roundHE (q * c) : ℚ) / c ≤ (q * c + 1/2) / c := by
          exact (div_le_div_right hc0).mpr hr2
        calc (roundHE (q * c) : ℚ) / c ≤ (q * c + 1/2) / c := this
          _ = q + 1 / (2 * c) := by field_simp; ring
          _ ≤ q + (2:ℚ) ^ m / 2 ^ 53 := by linarith
      · have : (q * c - 1/2) / c ≤ (roundHE (q * c) : ℚ) / c := by
          exact (div_le_div_right hc0).mpr hr3
        calc q - (2:ℚ) ^ m / 2 ^ 53 ≤ q - 1 / (2 * c) := by linarith
          _ = (q * c - 1/2) / c := by field_simp; ring
          _ ≤ (roundHE (q * c) : ℚ) / c := this

/-- `qfloor` from two-sided bounds. -/
theorem qfloor_eq_of (q : ℚ) (s : ℤ) (h1 : (s:ℚ) ≤ q) (h2 : q < s + 1) :
    qfloor q = s := by
  rw [qfloor_eq]
  exact Int.floor_eq_iff.mpr ⟨h1, h2⟩

/-- For nanosecond timestamps between 1 s and the year-9999 limit that do not
fall in the final millisecond before a whole-second boundary, the float
pipeline of the trace transform (`binary64` division by 1e9,
`fromtimestamp`'s microsecond rounding) lands in the same whole second as
exact division: the two timestamp representations agree. -/
theorem nsToTimestampString_agree (ns : ℕ) (hlo : 1000000000 ≤ ns)
    (hhi : ns ≤ 253402300799999999999)
    (hfrac : ns % 1000000000 ≤ 999000000) :
    nsToTimestampString ns = specSecondString ns := by
  unfold nsToTimestampString specSecondString
  congr 1
  set s : ℕ := ns / 1000000000 with hs
  set r : ℕ := ns % 1000000000 with hr
  have hsplit : ns = s * 1000000000 + r := by rw [hs, hr]; omega
  have hsl : 1 ≤ s := by rw [hs]; omega
  have hsu : s ≤ 253402300799 := by rw [hs]; omega
  have hrange : r < 1000000000 := by rw [hr]; omega
  set q : ℚ := (ns : ℚ) / 1000000000 with hq
  have hqe : q = (s:ℚ) + (r:ℚ) / 1000000000 := by
    rw [hq]
    rw [show ((ns:ℚ)) = ((s * 1000000000 + r : ℕ) : ℚ) from by rw [← hsplit]]
    push_cast
    field_simp
  have hq0 : 0 ≤ q := by rw [hq]; positivity
  have hrq0 : (0:ℚ) ≤ (r:ℚ)/1000000000 := by positivity
  have hrqb : (r:ℚ)/1000000000 ≤ 999/1000 := by
    rw [div_le_div_iff (by norm_num) (by norm_num)]
    have hcast : (r:ℚ) ≤ 999000000 := by exact_mod_cast hfrac
    linarith
  have hfs : qfloor q = (s:ℤ) := by
    apply qfloor_eq_of
    · rw [hqe]; push_cast; linarith
    · rw [hqe]; push_cast; linarith
  have hfl37 : (qfloor q).toNat < 2 ^ (37 + 1) := by
    rw [hfs]
    simp only [Int.toNat_natCast]
    have h38 : (2:ℕ) ^ (37 + 1) = 274877906944 := by norm_num
    omega
  obtain ⟨hb1, hb2, hb3⟩ := rdPos_bounds q 37 hq0 (by norm_num) hfl37
  have hfs' : ⌊q⌋ = (s:ℤ) := by rw [← qfloor_eq]; exact hfs
  have herr : (2:ℚ)^37 / 2^53 = 1/65536 := by norm_num
  rw [herr] at hb2 hb3
  have hrdq : rd q = rdPos q := rd_of_nonneg q hq0
  have hqb : q ≤ (s:ℚ) + 999/1000 := by rw [hqe]; linarith
  have ht1 : (s:ℚ) ≤ rdPos q := by
    rw [hfs'] at hb1
    exact_mod_cast hb1
  have ht2 : rdPos q < (s:ℚ) + 1 := by linarith
  rw [hrdq]
  unfold fromtimestampSec
  have hft : qfloor (rdPos q) = (s:ℤ) :=
    qfloor_eq_of (rdPos q) (s:ℤ) (by exact_mod_cast ht1) (by push_cast; linarith)
  rw [hft]
  have hfr0 : (0:ℚ) ≤ rdPos q - ((s:ℤ):ℚ) := by push_cast; linarith
  have hfrb : rdPos q - ((s:ℤ):ℚ) ≤ 999/1000 + 1/65536 := by
    push_cast
    linarith
  set y : ℚ := (rdPos q - ((s:ℤ):ℚ)) * 1000000 with hy
  have hy0 : 0 ≤ y := by rw [hy]; positivity
  have hyb : y ≤ 999016 := by
    rw [hy]
    calc (rdPos q - ((s:ℤ):ℚ)) * 1000000 ≤ (999/1000 + 1/65536) * 1000000 :=
          mul_le_mul_of_nonneg_right hfrb (by norm_num)
      _ ≤ 999016 := by norm_num
  have hyfl : (qfloor y).toNat < 2 ^ (19 + 1) := by
    rw [qfloor_eq]
    have h1 : ⌊y⌋ ≤ (999016:ℤ) := by
      have := Int.floor_le_floor hyb
      simpa using this
    have h0 : (0:ℤ) ≤ ⌊y⌋ := Int.floor_nonneg.mpr hy0
    have h20 : (2:ℕ) ^ (19 + 1) = 1048576 := by norm_num
    omega
  obtain ⟨hc1, hc2, hc3⟩ := rdPos_bounds y 19 hy0 (by norm_num) hyfl
  have hrdy : rd y = rdPos y := rd_of_nonneg y hy0
  simp only [← hy, hrdy]
  obtain ⟨hd1, hd2, hd3⟩ := roundHE_bounds (rdPos y)
  have h19 : (2:ℚ)^19 / 2^53 ≤ 1 := by norm_num
  have hy_fl0 : (0:ℚ) ≤ (⌊y⌋:ℤ) := by exact_mod_cast Int.floor_nonneg.mpr hy0
  have hrdPosy0 : (0:ℚ) ≤ rdPos y := by
    have : ((⌊y⌋:ℤ):ℚ) ≤ rdPos y := hc1
    have h0 : (0:ℚ) ≤ ((⌊y⌋:ℤ):ℚ) := by exact_mod_cast Int.floor_nonneg.mpr hy0
    linarith
  have hus_up : roundHE (rdPos y) < 1000000 := by
    have hq1 : (roundHE (rdPos y) : ℚ) ≤ rdPos y + 1/2 := hd2
    have hq2 : rdPos y ≤ y + 2^19/2^53 := hc2
    have : (roundHE (rdPos y) : ℚ) < 1000000 := by linarith
    exact_mod_cast this
  have hus_lo : (0:ℤ) ≤ roundHE (rdPos y) := by
    have h1 : ((⌊rdPos y⌋:ℤ):ℚ) ≤ (roundHE (rdPos y) : ℚ) := hd1
    have h2 : (0:ℤ) ≤ ⌊rdPos y⌋ := Int.floor_nonneg.mpr hrdPosy0
    have : ((0:ℤ):ℚ) ≤ (roundHE (rdPos y) : ℚ) := by
      have h3 : ((0:ℤ):ℚ) ≤ ((⌊rdPos y⌋:ℤ):ℚ) := by exact_mod_cast h2
      linarith
    exact_mod_cast this
  rw [if_neg (by omega), if_neg (by omega)]
  simp

/-- For whole-second datetimes with `sec * 5^9 < 2^53` (epochs up to roughly
the year 2116), `int(dt.timestamp() * 1e9)` is exact: both float steps round
nothing away. -/
theorem timestampNs_exact (sec : ℕ) (h1 : 1 ≤ sec) (h53 : sec * 5 ^ 9 < 2 ^ 53) :
    PyDatetime.timestampNs ⟨sec, 0⟩ = ((sec * 1000000000 : ℕ) : ℤ) := by
  unfold PyDatetime.timestampNs
  have hsec53 : sec < 2 ^ 53 := by
    have hle : sec ≤ sec * 5 ^ 9 := Nat.le_mul_of_pos_right sec (by norm_num)
    omega
  have e1 : ((sec * 1000000 + 0 : ℕ) : ℚ) / 1000000 = ((sec : ℕ) : ℚ) := by
    push_cast
    field_simp
  have e2 : rd ((sec : ℕ) : ℚ) = ((sec : ℕ) : ℚ) :=
    rd_nat_exact sec 0 (by omega) (by simpa using Dvd.intro sec rfl)
      (by simpa using hsec53)
  have e3 : ((sec : ℕ) : ℚ) * 1000000000 = ((sec * 1000000000 : ℕ) : ℚ) := by
    push_cast
    ring
  have hdvd : 2 ^ 9 ∣ sec * 1000000000 := ⟨sec * 5 ^ 9, by ring⟩
  have hbound : sec * 1000000000 < 2 ^ (53 + 9) := by
    have hc : sec * 1000000000 = 512 * (sec * 5 ^ 9) := by ring
    have h62 : (2:ℕ) ^ (53 + 9) = 512 * 2 ^ 53 := by norm_num
    omega
  have e4 : rd ((sec * 1000000000 : ℕ) : ℚ) = ((sec * 1000000000 : ℕ) : ℚ) :=
    rd_nat_exact (sec * 1000000000) 9 (by positivity) hdvd hbound
  show qfloor (rd (rd (((sec * 1000000 + 0 : ℕ) : ℚ) / 1000000) * 1000000000)) = _
  rw [e1, e2, e3, e4, qfloor_natCast]

/-! ## Claim theorems -/

/-- C1: for every input and every network outcome (unreachable host, timeout,
HTTP 500, HTTP 400, malformed response — all values of the oracle), no
`track_event`/`track_error`/`track_metric` call on the client and no
`send_trace`/`send_metric`/`send_log`/`flush` call on either backend lets an
exception escape to the caller: every failure surfaces as a `false` return or
a silent no-op. -/
theorem claim_c1_no_exception_escapes :
    (∀ (c : Client) (env : ClientEnv) (ev : String)
        (attrs : Option (List (String × PyVal))) (w : World),
      (clientTrackEvent c env ev attrs w).isOk) ∧
    (∀ (c : Client) (env : ClientEnv) (et em : String)
        (ctx : Option (List (String × PyVal))) (w : World),
      (clientTrackError c env et em ctx w).isOk) ∧
    (∀ (c : Client) (env : ClientEnv) (mn : String) (v : PyVal)
        (attrs : Option (List (String × PyVal))) (w : World),
      (clientTrackMetric c env mn v attrs w).isOk) ∧
    (∀ (env : OtlpEnv) (p : List Nat) (w : World),
      (otlpSendTrace env p w).isOk ∧ (otlpSendMetric env p w).isOk ∧
      (otlpSendLog env p w).isOk ∧ (otlpFlush env w).isOk) ∧
    (∀ (env : ChEnv) (span : OtlpSpan) (nowNs : Nat) (s : ChState) (w : World),
      (chAddToBatch env span nowNs s w).isOk) ∧
    (∀ (env : ChEnv) (a : MetricKwargs) (uuid : String) (nowDt : PyDatetime)
        (s : ChState) (w : World),
      (chSendMetricBody env a uuid nowDt s w).isOk) ∧
    (∀ (env : ChEnv) (a : LogKwargs) (uuid : String) (nowDt obsDt : PyDatetime)
        (s : ChState) (w : World),
      (chSendLogBody env a uuid nowDt obsDt s w).isOk) ∧
    (∀ (env : ChEnv) (s : ChState) (w : World), (chFlush env s w).isOk) ∧
    (∀ (env : ChEnv) (table : String) (rows : List (List Nat)) (w : World),
      (chInsertBatch env table rows w).isOk) := by
  refine ⟨?_, ?_, ?_, ?_, ?_, ?_, ?_, ?_, ?_⟩
  · intro c env ev attrs w
    exact clientSendEvent_isOk c env ev (attrs.getD []) w
  · intro c env et em ctx w
    exact clientSendEvent_isOk c env "automagik.error" _ w
  · intro c env mn v attrs w
    exact clientSendEvent_isOk c env mn _ w
  · intro env p w
    exact ⟨otlpSendWithRetry_isOk env env.cfg.endpoint p w,
      otlpSendWithRetry_isOk env env.cfg.metricsEndpoint p w,
      otlpSendWithRetry_isOk env env.cfg.logsEndpoint p w, rfl⟩
  · intro env span nowNs s w
    obtain ⟨s', w', h⟩ := chAddToBatch_ok env span nowNs s w
    rw [h]
    rfl
  · intro env a uuid nowDt s w
    obtain ⟨r, h⟩ := chSendMetricBody_ok env a uuid nowDt s w
    rw [h]
    rfl
  · intro env a uuid nowDt obsDt s w
    obtain ⟨r, h⟩ := chSendLogBody_ok env a uuid nowDt obsDt s w
    rw [h]
    rfl
  · intro env s w
    obtain ⟨b, w', h⟩ := chFlush_ok env s w
    rw [h]
    rfl
  · intro env table rows w
    obtain ⟨b, w', h⟩ := chInsertBatch_ok env table rows w
    rw [h]
    rfl

/-- C5: after every ClickHouse `flush()` call — whatever the network oracle
did, success or failure — every batch is empty: the post-state is exactly the
freshly-constructed state, so failed rows are dropped, never requeued. -/
theorem claim_c5_flush_clears_batches (env : ChEnv) (s : ChState) (w : World) :
    ∃ b w', chFlush env s w = .ok (b, ChState.empty, w') :=
  chFlush_ok env s w

/-- C6: every `track_event`/`track_error`/`track_metric` call on a disabled
client is a pure no-op: it returns without raising and the effect log (hence
the set of HTTP requests issued) is exactly the one it was called with. -/
theorem claim_c6_disabled_noop (c : Client) (env : ClientEnv) (ev et em mn : String)
    (attrs ctx : Option (List (String × PyVal))) (v : PyVal) (w : World)
    (hdis : c.enabled = false) :
    clientTrackEvent c env ev attrs w = .ok w ∧
    clientTrackError c env et em ctx w = .ok w ∧
    clientTrackMetric c env mn v attrs w = .ok w := by
  refine ⟨?_, ?_, ?_⟩ <;>
    simp [clientTrackEvent, clientTrackError, clientTrackMetric, clientSendEvent, hdis]

/-- C6 witness: a concrete disabled client call leaves the world unchanged. -/
theorem claim_c6_witness :
    (testClient "omni" false).enabled = false ∧
    clientTrackEvent (testClient "omni" false) (testClientEnv (fun _ => .status 200))
      "feature_used" Option.none World.empty = .ok World.empty ∧
    clientTrackError (testClient "omni" false) (testClientEnv (fun _ => .status 200))
      "ValueError" "boom" Option.none World.empty = .ok World.empty ∧
    clientTrackMetric (testClient "omni" false) (testClientEnv (fun _ => .status 200))
      "latency" (.float 3) Option.none World.empty = .ok World.empty := by
  have h := claim_c6_disabled_noop (testClient "omni" false)
    (testClientEnv (fun _ => .status 200)) "feature_used" "ValueError" "boom" "latency"
    Option.none Option.none (.float 3) World.empty rfl
  exact ⟨rfl, h.1, h.2.1, h.2.2⟩

/-- C3: when the first HTTP attempt of a send yields a 4xx outcome (response
status in `[400, 500)`, as a response object or an `HTTPError`), both backends
return `false` after exactly that one attempt — the request log grows by one
request and the sleep log does not grow at all. -/
theorem claim_c3_4xx_single_attempt (envO : OtlpEnv) (envC : ChEnv)
    (endpoint table : String) (payload : List Nat) (rows : List (List Nat))
    (w wc : World)
    (h4o : Is4xx (envO.net w.reqs.length)) (h4c : Is4xx (envC.net wc.reqs.length))
    (hmr : 1 ≤ envC.cfg.maxRetries) (hrows : ¬ rows.isEmpty = true) :
    otlpSendWithRetry envO endpoint payload w =
      .ok (false, w.push (otlpRequest envO endpoint payload)) ∧
    chInsertBatch envC table rows wc =
      .ok (false, wc.push (chInsertRequest envC table rows)) := by
  constructor
  · unfold otlpSendWithRetry
    rw [otlpAttemptLoop_4xx envO _ envO.cfg.maxRetries 0 w h4o]
  · obtain ⟨m, hm⟩ : ∃ m, envC.cfg.maxRetries = m + 1 :=
      ⟨envC.cfg.maxRetries - 1, by omega⟩
    unfold chInsertBatch
    rw [if_neg hrows, hm, chInsertLoop_4xx envC _ m 0 wc h4c]

/-- C3 witness: concrete backends receiving a 404 on the first attempt give up
after one request with no backoff. -/
theorem claim_c3_witness :
    otlpSendWithRetry (testOtlpEnv (fun _ => .status 404) 3 1024 gzipStored)
        "http://t/v1/traces" [1] World.empty =
      .ok (false, World.empty.push (otlpRequest
        (testOtlpEnv (fun _ => .status 404) 3 1024 gzipStored)
        "http://t/v1/traces" [1])) ∧
    chInsertBatch (testChEnv (fun _ => .status 404) 3 100) "traces" [[97]]
        World.empty =
      .ok (false, World.empty.push (chInsertRequest
        (testChEnv (fun _ => .status 404) 3 100) "traces" [[97]])) :=
  claim_c3_4xx_single_attempt
    (testOtlpEnv (fun _ => .status 404) 3 1024 gzipStored)
    (testChEnv (fun _ => .status 404) 3 100)
    "http://t/v1/traces" "traces" [1] [[97]] World.empty World.empty
    ⟨404, by norm_num, by norm_num, Or.inl rfl⟩
    ⟨404, by norm_num, by norm_num, Or.inl rfl⟩
    (by norm_num [testChEnv]) (by decide)

/-- C2 (amended): with `max_retries = N` and every attempt failing with an
HTTP status ≥ 500 or a network/timeout error, the OTLP backend makes exactly
`N + 1` HTTP attempts with backoff sleeps `base * 2^attempt` after each
non-final attempt, while the ClickHouse backend makes exactly `N` attempts
(its loop is `range(max_retries)`, one fewer than the spec's `N + 1`) with
sleeps after each of its non-final attempts; both then return `false`. -/
theorem claim_c2_amended_attempt_counts (envO : OtlpEnv) (envC : ChEnv)
    (endpoint table : String) (payload : List Nat) (rows : List (List Nat))
    (w wc : World)
    (hro : ∀ i, Retryable (envO.net (w.reqs.length + i)))
    (hrc : ∀ i, Retryable (envC.net (wc.reqs.length + i)))
    (hrows : ¬ rows.isEmpty = true) :
    otlpSendWithRetry envO endpoint payload w =
      .ok (false,
        { reqs := w.reqs ++
            List.replicate (envO.cfg.maxRetries + 1) (otlpRequest envO endpoint payload)
          sleeps := w.sleeps ++ (List.range envO.cfg.maxRetries).map
            (fun i => envO.cfg.retryBackoffBase * 2 ^ i) }) ∧
    chInsertBatch envC table rows wc =
      .ok (false,
        { reqs := wc.reqs ++
            List.replicate envC.cfg.maxRetries (chInsertRequest envC table rows)
          sleeps := wc.sleeps ++ (List.range (envC.cfg.maxRetries - 1)).map
            (fun i => envC.cfg.retryBackoffBase * 2 ^ i) }) := by
  constructor
  · unfold otlpSendWithRetry
    rw [otlpAttemptLoop_retryable envO (otlpRequest envO endpoint payload)
      (envO.cfg.maxRetries + 1) 0 w (fun i _ => hro i) (by omega)]
    simp
  · unfold chInsertBatch
    rw [if_neg hrows]
    rw [chInsertLoop_retryable envC (chInsertRequest envC table rows)
      envC.cfg.maxRetries 0 wc (fun i _ => hrc i) (by omega)]
    simp

/-- C2 (counterexample): a ClickHouse backend with `max_retries = 1` facing a
persistent 500 makes exactly one HTTP attempt before returning `false` — not
the `1 + 1 = 2` attempts the claim asserts for every backend. -/
theorem claim_c2_counterexample :
    (chInsertBatch (testChEnv (fun _ => .status 500) 1 100) "traces" [[97]]
        World.empty).map (fun r => (r.1, r.2.reqs.length)) = .ok (false, 1) ∧
    1 ≠ (testChEnv (fun _ => .status 500) 1 100).cfg.maxRetries + 1 := by
  exact ⟨rfl, by decide⟩

/-- C2 witness: with `max_retries = 2` and persistent 500s, the OTLP backend
makes three attempts sleeping 1 s and 2 s, and the ClickHouse backend makes
two attempts sleeping 1 s. -/
theorem claim_c2_witness :
    otlpSendWithRetry (testOtlpEnv (fun _ => .status 500) 2 1024 gzipStored)
        "http://t/v1/traces" [1] World.empty =
      .ok (false,
        { reqs := [] ++ List.replicate (2 + 1) (otlpRequest
            (testOtlpEnv (fun _ => .status 500) 2 1024 gzipStored)
            "http://t/v1/traces" [1])
          sleeps := [] ++ (List.range 2).map (fun i => 1 * 2 ^ i) }) ∧
    chInsertBatch (testChEnv (fun _ => .status 500) 2 100) "traces" [[97]]
        World.empty =
      .ok (false,
        { reqs := [] ++ List.replicate 2 (chInsertRequest
            (testChEnv (fun _ => .status 500) 2 100) "traces" [[97]])
          sleeps := [] ++ (List.range (2 - 1)).map (fun i => 1 * 2 ^ i) }) :=
  claim_c2_amended_attempt_counts
    (testOtlpEnv (fun _ => .status 500) 2 1024 gzipStored)
    (testChEnv (fun _ => .status 500) 2 100)
    "http://t/v1/traces" "traces" [1] [[97]] World.empty World.empty
    (fun _ => Or.inl ⟨500, le_rfl, Or.inl rfl⟩)
    (fun _ => Or.inl ⟨500, le_rfl, Or.inl rfl⟩)
    (by decide)

/-- C4: for the ClickHouse backend with `batch_size = B ≥ 1` (and at least one
retry of budget so a flush can reach the network), starting from a fresh
backend, the first `B - 1` successful `send_trace` / valid `send_metric` /
`send_log` calls of a signal type issue no HTTP request and only grow that
signal's batch, and the `B`-th call triggers a flush: the batch empties and at
least one insert request is issued. -/
theorem claim_c4_batch_autoflush (env : ChEnv) (span : OtlpSpan) (nowNs : Nat)
    (a : MetricKwargs) (la : LogKwargs) (uuid : String) (nowDt obsDt : PyDatetime)
    (mname : String)
    (hB : 1 ≤ env.cfg.batchSize) (hmr : 1 ≤ env.cfg.maxRetries)
    (hp : a.payload = .str mname) (hm : ¬ mname = "") (hv : a.value.isSome) :
    (∀ k, k < env.cfg.batchSize →
      (chSendTraceIter env span nowNs k).2.reqs = [] ∧
      (chSendTraceIter env span nowNs k).1.traceBatch.length = k ∧
      (chSendMetricIter env a uuid nowDt k).2.reqs = [] ∧
      (chSendMetricIter env a uuid nowDt k).1.metricBatch.length = k ∧
      (chSendLogIter env la uuid nowDt obsDt k).2.reqs = [] ∧
      (chSendLogIter env la uuid nowDt obsDt k).1.logBatch.length = k) ∧
    ((chSendTraceIter env span nowNs env.cfg.batchSize).1 = ChState.empty ∧
      1 ≤ (chSendTraceIter env span nowNs env.cfg.batchSize).2.reqs.length) ∧
    ((chSendMetricIter env a uuid nowDt env.cfg.batchSize).1 = ChState.empty ∧
      1 ≤ (chSendMetricIter env a uuid nowDt env.cfg.batchSize).2.reqs.length) ∧
    ((chSendLogIter env la uuid nowDt obsDt env.cfg.batchSize).1 = ChState.empty ∧
      1 ≤ (chSendLogIter env la uuid nowDt obsDt env.cfg.batchSize).2.reqs.length) := by
  refine ⟨?_, ?_, ?_, ?_⟩
  · intro k hk
    have h1 := chSendTraceIter_small env span nowNs k hk
    obtain ⟨mb, h2, h2l⟩ := chSendMetricIter_small env a uuid nowDt mname hp hm hv k hk
    obtain ⟨lb, h3, h3l⟩ := chSendLogIter_small env la uuid nowDt obsDt k hk
    rw [h1, h2, h3]
    simp [World.empty, h2l, h3l]
  · exact chSendTraceIter_flush env span nowNs hB hmr
  · exact chSendMetricIter_flush env a uuid nowDt mname hp hm hv hB hmr
  · exact chSendLogIter_flush env la uuid nowDt obsDt hB hmr

/-- C4 witness: with `batch_size = 2`, one call of each kind issues no
request, and the second call of each kind flushes. -/
theorem claim_c4_witness :
    ((chSendTraceIter (testChEnv (fun _ => .status 200) 3 2) (testSpan (some 0)) 0 1).2.reqs = [] ∧
      (chSendTraceIter (testChEnv (fun _ => .status 200) 3 2) (testSpan (some 0)) 0 1).1.traceBatch.length = 1 ∧
      (chSendMetricIter (testChEnv (fun _ => .status 200) 3 2) testMetricKwargs "u" ⟨0, 0⟩ 1).2.reqs = [] ∧
      (chSendMetricIter (testChEnv (fun _ => .status 200) 3 2) testMetricKwargs "u" ⟨0, 0⟩ 1).1.metricBatch.length = 1 ∧
      (chSendLogIter (testChEnv (fun _ => .status 200) 3 2) testLogKwargs "u" ⟨0, 0⟩ ⟨0, 0⟩ 1).2.reqs = [] ∧
      (chSendLogIter (testChEnv (fun _ => .status 200) 3 2) testLogKwargs "u" ⟨0, 0⟩ ⟨0, 0⟩ 1).1.logBatch.length = 1) ∧
    ((chSendTraceIter (testChEnv (fun _ => .status 200) 3 2) (testSpan (some 0)) 0 2).1 = ChState.empty ∧
      1 ≤ (chSendTraceIter (testChEnv (fun _ => .status 200) 3 2) (testSpan (some 0)) 0 2).2.reqs.length) ∧
    ((chSendMetricIter (testChEnv (fun _ => .status 200) 3 2) testMetricKwargs "u" ⟨0, 0⟩ 2).1 = ChState.empty ∧
      1 ≤ (chSendMetricIter (testChEnv (fun _ => .status 200) 3 2) testMetricKwargs "u" ⟨0, 0⟩ 2).2.reqs.length) ∧
    ((chSendLogIter (testChEnv (fun _ => .status 200) 3 2) testLogKwargs "u" ⟨0, 0⟩ ⟨0, 0⟩ 2).1 = ChState.empty ∧
      1 ≤ (chSendLogIter (testChEnv (fun _ => .status 200) 3 2) testLogKwargs "u" ⟨0, 0⟩ ⟨0, 0⟩ 2).2.reqs.length) := by
  have h := claim_c4_batch_autoflush (testChEnv (fun _ => .status 200) 3 2)
    (testSpan (some 0)) 0 testMetricKwargs testLogKwargs "u" ⟨0, 0⟩ ⟨0, 0⟩ "m"
    (by decide) (by decide) rfl (by decide) rfl
  exact ⟨h.1 1 (by decide), h.2.1, h.2.2.1, h.2.2.2⟩

/-- C7 (counterexample): a `send_metric` call under the dict convention whose
payload has a metric name but no value is NOT rejected: it returns `true` and
appends a row (with value 0.0) to the metric batch, contradicting the claim
that an absent value yields `false` with no append. -/
theorem claim_c7_counterexample :
    (chSendMetric (testChEnv (fun _ => .status 200) 3 100) testMetricDictNoValue
        "u" ⟨0, 0⟩ ChState.empty World.empty).1 = true ∧
    (chSendMetric (testChEnv (fun _ => .status 200) 3 100) testMetricDictNoValue
        "u" ⟨0, 0⟩ ChState.empty World.empty).2.1.metricBatch.length = 1 ∧
    (chSendMetric (testChEnv (fun _ => .status 200) 3 100) testMetricDictNoValue
        "u" ⟨0, 0⟩ ChState.empty World.empty).2.1.metricBatch.map
        (fun r => r.value_double) = [0] ∧
    (chSendMetric (testChEnv (fun _ => .status 200) 3 100) testMetricDictNoValue
        "u" ⟨0, 0⟩ ChState.empty World.empty).2.2 = World.empty := by
  refine ⟨by decide, by decide, by decide, by decide⟩

/-- C7 (amended): `send_metric` validation — a missing or empty metric name is
rejected (`false`, no append, no network) under every calling convention, and
a missing value is rejected under the keyword and legacy-string conventions;
under the dict convention, however, a missing value is not rejected: it
defaults to 0.0 and the metric row is appended. -/
theorem claim_c7_amended_validation (env : ChEnv) (a : MetricKwargs)
    (uuid : String) (nowDt : PyDatetime) (s : ChState) (w : World) :
    ((a.payload = .none ∧ a.kwMetricName.getD "" = "") →
      chSendMetric env a uuid nowDt s w = (false, s, w)) ∧
    (a.payload = .str "" → chSendMetric env a uuid nowDt s w = (false, s, w)) ∧
    (∀ d, a.payload = .dict d → d.metricName.getD "" = "" →
      chSendMetric env a uuid nowDt s w = (false, s, w)) ∧
    (a.value = Option.none → ¬ a.payload.isDict = true →
      chSendMetric env a uuid nowDt s w = (false, s, w)) ∧
    (∀ d, a.payload = .dict d → ¬ d.metricName.getD "" = "" →
      d.value = Option.none →
      chSendMetricBody env a uuid nowDt s w =
        chAppendMetric env (buildMetricRow (d.metricName.getD "") (.float 0)
          (normalizeMetricType (d.metricType.getD "gauge")) (d.unit.getD "")
          (d.attributes.getD []) (d.resourceAttributes.getD [])
          (d.timestamp.getD nowDt) uuid) s w ∧
      (buildMetricRow (d.metricName.getD "") (.float 0)
        (normalizeMetricType (d.metricType.getD "gauge")) (d.unit.getD "")
        (d.attributes.getD []) (d.resourceAttributes.getD [])
        (d.timestamp.getD nowDt) uuid).value_double = 0) := by
  refine ⟨?_, ?_, ?_, ?_, ?_⟩
  · rintro ⟨hp, hk⟩
    unfold chSendMetric chSendMetricBody
    simp [hp, hk]
  · intro hp
    unfold chSendMetric chSendMetricBody
    simp [hp]
  · intro d hp hn
    unfold chSendMetric chSendMetricBody
    simp [hp, hn]
  · intro hv hnd
    unfold chSendMetric chSendMetricBody
    rcases hp : a.payload with d | ms | _
    · rw [hp] at hnd
      simp [MetricPayload.isDict] at hnd
    · by_cases hms : ms = "" <;> simp [hp, hms, hv, MetricPayload.isDict]
    · by_cases hkw : a.kwMetricName.getD "" = "" <;>
        simp [hp, hkw, hv, MetricPayload.isDict]
  · intro d hp hn hv
    constructor
    · unfold chSendMetricBody
      simp [hp, hn, hv, MetricPayload.isDict]
    · simp [buildMetricRow]

/-- C7 witness: concrete rejected calls (empty-string name; keyword call with
no value) and a concrete accepted dict call with no value. -/
theorem claim_c7_witness :
    chSendMetric (testChEnv (fun _ => .status 200) 3 100)
      { payload := .str ""
        value := some (.float 1)
        metricType := "gauge"
        unit := ""
        attributes := Option.none
        resourceAttributes := Option.none
        timestamp := Option.none
        kwMetricName := Option.none } "u" ⟨0, 0⟩ ChState.empty World.empty =
      (false, ChState.empty, World.empty) ∧
    chSendMetric (testChEnv (fun _ => .status 200) 3 100)
      { payload := .str "m"
        value := Option.none
        metricType := "gauge"
        unit := ""
        attributes := Option.none
        resourceAttributes := Option.none
        timestamp := Option.none
        kwMetricName := Option.none } "u" ⟨0, 0⟩ ChState.empty World.empty =
      (false, ChState.empty, World.empty) ∧
    (buildMetricRow "m" (.float 0) (normalizeMetricType "gauge") ""
      [] [] (PyDatetime.mk 0 0) "u").value_double = 0 := by
  have h1 := (claim_c7_amended_validation (testChEnv (fun _ => .status 200) 3 100)
    { payload := .str ""
      value := some (.float 1)
      metricType := "gauge"
      unit := ""
      attributes := Option.none
      resourceAttributes := Option.none
      timestamp := Option.none
      kwMetricName := Option.none } "u" ⟨0, 0⟩ ChState.empty World.empty).2.1 rfl
  have h2 := (claim_c7_amended_validation (testChEnv (fun _ => .status 200) 3 100)
    { payload := .str "m"
      value := Option.none
      metricType := "gauge"
      unit := ""
      attributes := Option.none
      resourceAttributes := Option.none
      timestamp := Option.none
      kwMetricName := Option.none } "u" ⟨0, 0⟩ ChState.empty World.empty).2.2.2.1 rfl
      (by decide)
  have h3 := ((claim_c7_amended_validation (testChEnv (fun _ => .status 200) 3 100)
    testMetricDictNoValue "u" ⟨0, 0⟩ ChState.empty World.empty).2.2.2.2
    { metricName := some "m"
      value := Option.none
      metricType := Option.none
      unit := Option.none
      attributes := Option.none
      resourceAttributes := Option.none
      timestamp := Option.none } rfl (by decide) rfl).2
  exact ⟨h1, h2, by simpa using h3⟩

/-- C8 (counterexample): with compression enabled and a payload at or above the
threshold, `_send_with_retry` can transmit gzip bytes WITHOUT the
`Content-Encoding: gzip` header: every gzip stream carries at least 18 bytes of
container overhead, so a 2-byte payload gzips to something longer than itself,
the `compressed` flag (`len(compressed) < len(original)`) comes out `False`,
and the gzipped body is sent headerless — contradicting the claimed pairing of
compression with the header. -/
theorem claim_c8_counterexample :
    (testOtlpEnv (fun _ => .status 200) 3 1 gzipStored).cfg.compressionEnabled
        = true ∧
    (testOtlpEnv (fun _ => .status 200) 3 1 gzipStored).cfg.compressionThreshold
        ≤ ([123, 125] : List Nat).length ∧
    (otlpRequest (testOtlpEnv (fun _ => .status 200) 3 1 gzipStored)
        "http://t/v1/traces" [123, 125]).body = gzipStored [123, 125] ∧
    ¬ (otlpRequest (testOtlpEnv (fun _ => .status 200) 3 1 gzipStored)
        "http://t/v1/traces" [123, 125]).body = [123, 125] ∧
    (otlpRequest (testOtlpEnv (fun _ => .status 200) 3 1 gzipStored)
        "http://t/v1/traces" [123, 125]).contentEncodingGzip = false := by
  refine ⟨rfl, by decide, by decide, by decide, by decide⟩

/-- C8 (amended): with compression enabled, a payload at or above the
threshold is compressed (and, for any decompressor inverting the compressor,
decompresses byte-for-byte back to the original), but the
`Content-Encoding: gzip` header is attached iff the compressed bytes are
strictly shorter than the original; a payload below the threshold is sent
uncompressed and headerless; and every request issued during the retry loop
carries exactly this body/header pair. -/
theorem claim_c8_amended_compression (env : OtlpEnv) (endpoint : String)
    (payload : List Nat) (gun : List Nat → List Nat)
    (hen : env.cfg.compressionEnabled = true)
    (hrt : ∀ p, gun (env.gz p) = p) :
    (env.cfg.compressionThreshold ≤ payload.length →
      (otlpRequest env endpoint payload).body = env.gz payload ∧
      ((otlpRequest env endpoint payload).contentEncodingGzip = true ↔
        (env.gz payload).length < payload.length) ∧
      gun (otlpRequest env endpoint payload).body = payload) ∧
    (payload.length < env.cfg.compressionThreshold →
      (otlpRequest env endpoint payload).body = payload ∧
      (otlpRequest env endpoint payload).contentEncodingGzip = false) ∧
    (∀ (w : World) (b : Bool) (w' : World),
      otlpSendWithRetry env endpoint payload w = .ok (b, w') →
      ∃ k, w'.reqs = w.reqs ++
        List.replicate k (otlpRequest env endpoint payload)) := by
  refine ⟨?_, ?_, ?_⟩
  · intro hth
    refine ⟨?_, ?_, ?_⟩
    · simp [otlpRequest, otlpCompressPayload, hen, hth]
    · simp [otlpRequest, otlpGzipHeader, otlpCompressPayload, hen, hth]
    · simp [otlpRequest, otlpCompressPayload, hen, hth, hrt]
  · intro hth
    constructor
    · simp [otlpRequest, otlpCompressPayload, Nat.not_le_of_lt hth]
    · simp [otlpRequest, otlpGzipHeader, otlpCompressPayload,
        Nat.not_le_of_lt hth]
  · intro w b w' h
    exact otlpSendWithRetry_reqs env endpoint payload w b w' h

/-- C8 witness: a concrete compressor/decompressor pair satisfying the
round-trip hypothesis, evaluated on a 2-byte payload at the threshold. -/
theorem claim_c8_witness :
    ((testOtlpEnv (fun _ => .status 200) 0 2 gzPack).cfg.compressionThreshold ≤
        ([7, 7] : List Nat).length →
      (otlpRequest (testOtlpEnv (fun _ => .status 200) 0 2 gzPack) "e"
          [7, 7]).body = (testOtlpEnv (fun _ => .status 200) 0 2 gzPack).gz
          [7, 7] ∧
      ((otlpRequest (testOtlpEnv (fun _ => .status 200) 0 2 gzPack) "e"
          [7, 7]).contentEncodingGzip = true ↔
        ((testOtlpEnv (fun _ => .status 200) 0 2 gzPack).gz [7, 7]).length <
          ([7, 7] : List Nat).length) ∧
      gunzipPack (otlpRequest (testOtlpEnv (fun _ => .status 200) 0 2 gzPack)
          "e" [7, 7]).body = [7, 7]) ∧
    (([7, 7] : List Nat).length <
        (testOtlpEnv (fun _ => .status 200) 0 2 gzPack).cfg.compressionThreshold →
      (otlpRequest (testOtlpEnv (fun _ => .status 200) 0 2 gzPack) "e"
          [7, 7]).body = [7, 7] ∧
      (otlpRequest (testOtlpEnv (fun _ => .status 200) 0 2 gzPack) "e"
          [7, 7]).contentEncodingGzip = false) ∧
    (∀ (w : World) (b : Bool) (w' : World),
      otlpSendWithRetry (testOtlpEnv (fun _ => .status 200) 0 2 gzPack) "e"
          [7, 7] w = .ok (b, w') →
      ∃ k, w'.reqs = w.reqs ++ List.replicate k
        (otlpRequest (testOtlpEnv (fun _ => .status 200) 0 2 gzPack) "e"
          [7, 7])) :=
  claim_c8_amended_compression (testOtlpEnv (fun _ => .status 200) 0 2 gzPack)
    "e" [7, 7] gunzipPack rfl gunzipPack_gzPack

/-- C9 (counterexample): the trace transform derives the string timestamp by
float-dividing the nanosecond value by 1e9 and rounding through
`fromtimestamp`; near a whole-second boundary the binary64 rounding carries
into the next second, so the nanosecond field and the string disagree:
at `ns = 999999999999999999` the row carries the string `…01:46:40` while the
nanosecond value formatted to the second is `…01:46:39`. -/
theorem claim_c9_counterexample :
    (transformOtlpToClickhouse (testSpan (some 999999999999999999))
        0).timestamp_ns = 999999999999999999 ∧
    (transformOtlpToClickhouse (testSpan (some 999999999999999999))
        0).timestamp = "2001-09-09 01:46:40" ∧
    specSecondString 999999999999999999 = "2001-09-09 01:46:39" ∧
    ¬ (transformOtlpToClickhouse (testSpan (some 999999999999999999))
        0).timestamp = specSecondString (transformOtlpToClickhouse
          (testSpan (some 999999999999999999)) 0).timestamp_ns := by
  refine ⟨by decide, by decide, by decide, by decide⟩

/-- C9 (amended): outside the float pipeline's rounding window the two
timestamp representations of every row agree.  For trace rows whose span
timestamp lies between 1 s and the year-9999 limit and not in the final
millisecond of its second, the nanosecond field is the span timestamp and the
string is that value divided by 1e9 and formatted to the second; for metric
and log rows built from whole-second datetimes with `sec * 5^9 < 2^53`, the
nanosecond fields are exactly `sec * 1e9` and the strings (including the log
row's observed pair) format those same values. -/
theorem claim_c9_amended_timestamp_consistency
    (span : OtlpSpan) (nowNs ns : Nat) (env : ChEnv)
    (mname ctype unit : String) (v : PyNum)
    (attrs resAttrs : List (String × String)) (uuid : String)
    (msg lvl tid sid : String) (sec osec : Nat)
    (hspan : span.startTimeUnixNano = some ns)
    (hlo : 1000000000 ≤ ns) (hhi : ns ≤ 253402300799999999999)
    (hfrac : ns % 1000000000 ≤ 999000000)
    (hs1 : 1 ≤ sec) (hs53 : sec * 5 ^ 9 < 2 ^ 53)
    (ho1 : 1 ≤ osec) (ho53 : osec * 5 ^ 9 < 2 ^ 53) :
    ((transformOtlpToClickhouse span nowNs).timestamp_ns = ns ∧
     (transformOtlpToClickhouse span nowNs).timestamp =
       specSecondString (transformOtlpToClickhouse span nowNs).timestamp_ns) ∧
    ((buildMetricRow mname v ctype unit attrs resAttrs ⟨sec, 0⟩
        uuid).timestamp_ns = ((sec * 1000000000 : ℕ) : ℤ) ∧
     (buildMetricRow mname v ctype unit attrs resAttrs ⟨sec, 0⟩
        uuid).timestamp = specSecondString (buildMetricRow mname v ctype unit
          attrs resAttrs ⟨sec, 0⟩ uuid).timestamp_ns.toNat) ∧
    ((buildLogRow env msg lvl tid sid attrs resAttrs ⟨sec, 0⟩ ⟨osec, 0⟩
        uuid).timestamp_ns = ((sec * 1000000000 : ℕ) : ℤ) ∧
     (buildLogRow env msg lvl tid sid attrs resAttrs ⟨sec, 0⟩ ⟨osec, 0⟩
        uuid).timestamp = specSecondString (buildLogRow env msg lvl tid sid
          attrs resAttrs ⟨sec, 0⟩ ⟨osec, 0⟩ uuid).timestamp_ns.toNat ∧
     (buildLogRow env msg lvl tid sid attrs resAttrs ⟨sec, 0⟩ ⟨osec, 0⟩
        uuid).observed_timestamp_ns = ((osec * 1000000000 : ℕ) : ℤ) ∧
     (buildLogRow env msg lvl tid sid attrs resAttrs ⟨sec, 0⟩ ⟨osec, 0⟩
        uuid).observed_timestamp = specSecondString (buildLogRow env msg lvl
          tid sid attrs resAttrs ⟨sec, 0⟩ ⟨osec, 0⟩
          uuid).observed_timestamp_ns.toNat) := by
  have hstr : ∀ c : Nat, 1 ≤ c → c * 5 ^ 9 < 2 ^ 53 →
      PyDatetime.timestampNs ⟨c, 0⟩ = ((c * 1000000000 : ℕ) : ℤ) ∧
      PyDatetime.str ⟨c, 0⟩ =
        specSecondString (PyDatetime.timestampNs ⟨c, 0⟩).toNat := by
    intro c hc1 hc53
    have hts := timestampNs_exact c hc1 hc53
    refine ⟨hts, ?_⟩
    rw [hts]
    simp only [Int.toNat_natCast]
    unfold PyDatetime.str specSecondString
    show formatSeconds c = formatSeconds (c * 1000000000 / 1000000000)
    congr 1
    omega
  refine ⟨⟨?_, ?_⟩, ?_, ?_⟩
  · simp [transformOtlpToClickhouse, hspan]
  · have hagree := nsToTimestampString_agree ns hlo hhi hfrac
    simp [transformOtlpToClickhouse, hspan, hagree]
  · obtain ⟨h1, h2⟩ := hstr sec hs1 hs53
    exact ⟨h1, h2⟩
  · obtain ⟨h1, h2⟩ := hstr sec hs1 hs53
    obtain ⟨h3, h4⟩ := hstr osec ho1 ho53
    exact ⟨h1, h2, h3, h4⟩

/-- C9 witness: the amended consistency theorem evaluated on a span at
epoch-second 1700000000 and on metric/log rows built from that whole-second
datetime. -/
theorem claim_c9_witness :
    ((transformOtlpToClickhouse (testSpan (some 1700000000000000000))
        0).timestamp_ns = 1700000000000000000 ∧
     (transformOtlpToClickhouse (testSpan (some 1700000000000000000))
        0).timestamp = specSecondString (transformOtlpToClickhouse
          (testSpan (some 1700000000000000000)) 0).timestamp_ns) ∧
    ((buildMetricRow "m" (.float 1) "GAUGE" "" [] [] ⟨1700000000, 0⟩
        "u").timestamp_ns = ((1700000000 * 1000000000 : ℕ) : ℤ) ∧
     (buildMetricRow "m" (.float 1) "GAUGE" "" [] [] ⟨1700000000, 0⟩
        "u").timestamp = specSecondString (buildMetricRow "m" (.float 1)
          "GAUGE" "" [] [] ⟨1700000000, 0⟩ "u").timestamp_ns.toNat) ∧
    ((buildLogRow (testChEnv (fun _ => .status 200) 1 10) "msg" "INFO" "" ""
        [] [] ⟨1700000000, 0⟩ ⟨1700000000, 0⟩ "u").timestamp_ns =
        ((1700000000 * 1000000000 : ℕ) : ℤ) ∧
     (buildLogRow (testChEnv (fun _ => .status 200) 1 10) "msg" "INFO" "" ""
        [] [] ⟨1700000000, 0⟩ ⟨1700000000, 0⟩ "u").timestamp =
        specSecondString (buildLogRow (testChEnv (fun _ => .status 200) 1 10)
          "msg" "INFO" "" "" [] [] ⟨1700000000, 0⟩ ⟨1700000000, 0⟩
          "u").timestamp_ns.toNat ∧
     (buildLogRow (testChEnv (fun _ => .status 200) 1 10) "msg" "INFO" "" ""
        [] [] ⟨1700000000, 0⟩ ⟨1700000000, 0⟩ "u").observed_timestamp_ns =
        ((1700000000 * 1000000000 : ℕ) : ℤ) ∧
     (buildLogRow (testChEnv (fun _ => .status 200) 1 10) "msg" "INFO" "" ""
        [] [] ⟨1700000000, 0⟩ ⟨1700000000, 0⟩ "u").observed_timestamp =
        specSecondString (buildLogRow (testChEnv (fun _ => .status 200) 1 10)
          "msg" "INFO" "" "" [] [] ⟨1700000000, 0⟩ ⟨1700000000, 0⟩
          "u").observed_timestamp_ns.toNat) :=
  claim_c9_amended_timestamp_consistency (testSpan (some 1700000000000000000))
    0 1700000000000000000 (testChEnv (fun _ => .status 200) 1 10)
    "m" "GAUGE" "" (.float 1) [] [] "u" "msg" "INFO" "" ""
    1700000000 1700000000 rfl (by decide) (by decide) (by decide)
    (by decide) (by decide) (by decide) (by decide)

/-- C10 (counterexample): the 500-character truncation is applied only in the
event-data loop of `_create_attributes`; the system-info loop stringifies
without truncating, so a client constructed with a 501-character project name
emits a `system.project_name` attribute holding the full 501-character
string. -/
theorem claim_c10_counterexample :
    (⟨"system.project_name",
        AttrValue.stringValue (String.mk (List.replicate 501 'a'))⟩ : OtlpKV) ∈
      (clientBuildPayload (testClient (String.mk (List.replicate 501 'a')) true)
        (testClientEnv (fun _ => .status 200)) "ev" []).attributes ∧
    500 < (String.mk (List.replicate 501 'a')).length := by
  refine ⟨by decide, by decide⟩

/-- C10 (amended): in the payload `_send_event` emits, the attribute list is
the system-info attributes followed by the converted event data; every
event-data attribute that is not a bool, int or float is stringified and
truncated to at most 500 characters (bools as `boolValue`, numbers as
`doubleValue` after one float rounding, untruncated), while system-info
string attributes are stringified but NOT truncated. -/
theorem claim_c10_amended_truncation (c : Client) (env : ClientEnv)
    (eventType : String) (data : List (String × PyVal)) :
    ((clientBuildPayload c env eventType data).attributes =
      (getSystemInfo c env.sys).map systemAttribute ++
        data.map dataAttribute) ∧
    (∀ p : String × PyVal, ∀ s : String,
      (dataAttribute p).value = .stringValue s → s.length ≤ 500) ∧
    (∀ p : String × PyVal,
      (∀ b, p.2 = .bool b → dataAttribute p = ⟨p.1, .boolValue b⟩) ∧
      (∀ n, p.2 = .int n → dataAttribute p = ⟨p.1, .doubleValue (rd n)⟩) ∧
      (∀ q, p.2 = .float q → dataAttribute p = ⟨p.1, .doubleValue q⟩) ∧
      (∀ s, p.2 = .str s →
        dataAttribute p = ⟨p.1, .stringValue (pyTake 500 s)⟩) ∧
      (∀ r, p.2 = .other r →
        dataAttribute p = ⟨p.1, .stringValue (pyTake 500 r)⟩)) ∧
    (∀ p : String × PyVal, ∀ s, p.2 = .str s →
      systemAttribute p = ⟨"system." ++ p.1, .stringValue s⟩) := by
  refine ⟨rfl, ?_, ?_, ?_⟩
  · rintro ⟨k, v⟩ s h
    cases v with
    | bool b => simp [dataAttribute] at h
    | int n => simp [dataAttribute] at h
    | float q => simp [dataAttribute] at h
    | str t =>
      simp [dataAttribute] at h
      rw [← h]
      show (t.data.take 500).length ≤ 500
      simp [List.length_take]
    | other r =>
      simp [dataAttribute] at h
      rw [← h]
      show ((pyStr (PyVal.other r)).data.take 500).length ≤ 500
      simp [List.length_take]
  · rintro ⟨k, v⟩
    refine ⟨?_, ?_, ?_, ?_, ?_⟩ <;> (intro x hx; cases hx; rfl)
  · rintro ⟨k, v⟩ s h
    cases h
    rfl

/-- C10 witness: the truncation theorem evaluated on a 501-character string as
event data (truncated to 500) and as the system project name (kept whole). -/
theorem claim_c10_witness :
    dataAttribute ("k", .str (String.mk (List.replicate 501 'a'))) =
      ⟨"k", .stringValue (pyTake 500 (String.mk (List.replicate 501 'a')))⟩ ∧
    (pyTake 500 (String.mk (List.replicate 501 'a'))).length ≤ 500 ∧
    systemAttribute ("project_name",
        .str (String.mk (List.replicate 501 'a'))) =
      ⟨"system.project_name",
        .stringValue (String.mk (List.replicate 501 'a'))⟩ := by
  have h := claim_c10_amended_truncation (testClient "p" true)
    (testClientEnv (fun _ => .status 200)) "e" []
  refine ⟨?_, ?_, ?_⟩
  · exact (h.2.2.1 ("k", .str (String.mk (List.replicate 501 'a')))).2.2.2.1
      _ rfl
  · apply h.2.1 ("k", .str (String.mk (List.replicate 501 'a')))
    rw [(h.2.2.1 ("k", .str (String.mk (List.replicate 501 'a')))).2.2.2.1
      _ rfl]
  · have hsys := h.2.2.2 ("project_name",
      .str (String.mk (List.replicate 501 'a')))
      (String.mk (List.replicate 501 'a')) rfl
    rw [hsys]
    rfl
